import Mathlib

/-!
# Verification of the CHGK quiz-bot core

Shallow embedding of the CHGK-bot repository (`app/difficulty.py`,
`app/matcher.py`, `app/services.py`, `app/parser.py`, `app/models.py`)
and proofs of the specification's claims about it.

Conventions:
* Python `float` values are idealised as `Rat` (the code only ever adds,
  divides by small integers and compares, so rational arithmetic is exact).
* Python `None` becomes `Option.none`.
* Database rows become structures; a SQLAlchemy session becomes an explicit
  state value threaded through the operations.
* Randomness (`ORDER BY random() LIMIT 1`) is modelled by an explicit index
  choosing an element of the filtered candidate list.
-/

namespace CHGK

/-! ## `app/difficulty.py` -/

/-- Python's built-in `round` on an exact rational: round half to even. -/
def pythonRound (x : Rat) : Int :=
  let f : Int := ⌊x⌋
  let frac : Rat := x - f
  if frac < 1/2 then f
  else if 1/2 < frac then f + 1
  else if f % 2 = 0 then f else f + 1

/-- `difficulty_score(primary, secondary)`: mean of the values that are
present (`[v for v in (primary, secondary) if v is not None]`), `None` if
both are absent. -/
def difficulty_score (primary secondary : Option Rat) : Option Rat :=
  match primary, secondary with
  | none, none => none
  | some a, none => some a
  | none, some b => some b
  | some a, some b => some ((a + b) / 2)

/-- `difficulty_bucket(primary, secondary)`: `int(round(score))` clamped
into `[1, 10]`; `None` when the score is `None`. -/
def difficulty_bucket (primary secondary : Option Rat) : Option Int :=
  match difficulty_score primary secondary with
  | none => none
  | some score =>
    let rounded := pythonRound score
    some (if rounded < 1 then 1 else if rounded > 10 then 10 else rounded)

/-! ## `app/matcher.py`

The matcher operates on Unicode text.  Characters are Lean `Char`s; the
Unicode tables consulted by `unicodedata` are embedded for the repertoire
the program's data exercises: ASCII, the Cyrillic block (U+0400–U+04FF)
and a handful of precomposed accented Latin letters, with combining marks
U+0300–U+036F as the `Mn` category.  Cyrillic letters are written by code
point to keep them apart from look-alike Latin letters. -/

/-- `unicodedata.category(ch) == "Mn"` restricted to the combining
diacritical marks block U+0300–U+036F. -/
def isMnChar (c : Char) : Bool :=
  decide (0x300 ≤ c.toNat ∧ c.toNat ≤ 0x36F)

/-- NFD decomposition (`unicodedata.normalize("NFD", ...)`) as a map on
single characters, for the modelled repertoire: `é É ö Ö = U+00E9 U+00C9
U+00F6 U+00D6` decompose to a base letter plus a combining mark, `ё Ё й Й
= U+0451 U+0401 U+0439 U+0419` decompose to `е Е и И` plus a combining
mark; every other modelled character is its own decomposition. -/
def nfdDecompose (c : Char) : List Char :=
  if c.toNat = 0xE9 then ['e', Char.ofNat 0x301]
  else if c.toNat = 0xC9 then ['E', Char.ofNat 0x301]
  else if c.toNat = 0xF6 then ['o', Char.ofNat 0x308]
  else if c.toNat = 0xD6 then ['O', Char.ofNat 0x308]
  else if c.toNat = 0x451 then [Char.ofNat 0x435, Char.ofNat 0x308]
  else if c.toNat = 0x401 then [Char.ofNat 0x415, Char.ofNat 0x308]
  else if c.toNat = 0x439 then [Char.ofNat 0x438, Char.ofNat 0x306]
  else if c.toNat = 0x419 then [Char.ofNat 0x418, Char.ofNat 0x306]
  else [c]

/-- `value.replace("ё", "е").replace("Ё", "Е")` as a map on characters. -/
def yoFold (c : Char) : Char :=
  if c.toNat = 0x451 then Char.ofNat 0x435
  else if c.toNat = 0x401 then Char.ofNat 0x415
  else c

/-- `str.lower()` for the modelled repertoire (ASCII and Cyrillic). -/
def lowerChar (c : Char) : Char :=
  if 'A' ≤ c ∧ c ≤ 'Z' then Char.ofNat (c.toNat + 32)
  else if 0x410 ≤ c.toNat ∧ c.toNat ≤ 0x42F then Char.ofNat (c.toNat + 0x20)
  else if c.toNat = 0x401 then Char.ofNat 0x451
  else c

/-- Python's `\s` / `str.strip()` whitespace (ASCII repertoire). -/
def isWsChar (c : Char) : Bool :=
  c = ' ' || c = '\t' || c = '\n' || c = '\r' ||
    decide (c.toNat = 0x0B) || decide (c.toNat = 0x0C)

/-- Python's `\w` (`re.UNICODE`) for the modelled repertoire: ASCII
alphanumerics, underscore, and the Cyrillic block. -/
def isWordChar (c : Char) : Bool :=
  c.isAlphanum || c = '_' || decide (0x400 ≤ c.toNat ∧ c.toNat ≤ 0x4FF)

/-- `str.strip()`: drop whitespace from both ends. -/
def stripEnds (l : List Char) : List Char :=
  ((l.dropWhile isWsChar).reverse.dropWhile isWsChar).reverse

/-- Skip past the first occurrence of `close`, returning the suffix after
it; `none` when `close` does not occur (the bracket regex then has no
match starting at the opening bracket). -/
def afterClose (close : Char) : List Char → Option (List Char)
  | [] => none
  | c :: rest => if c = close then some rest else afterClose close rest

/-- Recursion core of `subBrackets`; `fuel` only bounds the recursion
depth (every step consumes at least one character, and callers pass the
list length, so the `fuel = 0` fallback is never reached). -/
def subBracketsGo : Nat → List Char → List Char
  | _, [] => []
  | 0, l => l
  | fuel + 1, c :: rest =>
    if c = '[' then
      match afterClose ']' rest with
      | some rest' => ' ' :: subBracketsGo fuel rest'
      | none => c :: subBracketsGo fuel rest
    else if c = '(' then
      match afterClose ')' rest with
      | some rest' => ' ' :: subBracketsGo fuel rest'
      | none => c :: subBracketsGo fuel rest
    else c :: subBracketsGo fuel rest

/-- `_BRACKET_RE.sub(" ", value)`: replace each leftmost match of
`\[[^\]]*\]|\([^\)]*\)` by a single space; an opening bracket with no
matching close is kept verbatim. -/
def subBrackets (l : List Char) : List Char :=
  subBracketsGo l.length l

/-- Recursion core of `subNonAlnum` (structural on `fuel`, see
`subBracketsGo`). -/
def subNonAlnumGo : Nat → List Char → List Char
  | _, [] => []
  | 0, l => l
  | fuel + 1, c :: rest =>
    if isWordChar c || isWsChar c then c :: subNonAlnumGo fuel rest
    else ' ' :: subNonAlnumGo fuel (rest.dropWhile (fun d => !(isWordChar d || isWsChar d)))

/-- `_NON_ALNUM_RE.sub(" ", value)`: each maximal run of characters that
are neither word characters nor whitespace becomes a single space. -/
def subNonAlnum (l : List Char) : List Char :=
  subNonAlnumGo l.length l

/-- Recursion core of `collapseWs` (structural on `fuel`, see
`subBracketsGo`). -/
def collapseWsGo : Nat → List Char → List Char
  | _, [] => []
  | 0, l => l
  | fuel + 1, c :: rest =>
    if isWsChar c then ' ' :: collapseWsGo fuel (rest.dropWhile isWsChar)
    else c :: collapseWsGo fuel rest

/-- `_SPACES_RE.sub(" ", value)`: each maximal whitespace run becomes a
single space. -/
def collapseWs (l : List Char) : List Char :=
  collapseWsGo l.length l

/-- `normalize_text(value)` from `app/matcher.py`: NFD-decompose, drop
combining marks, fold `ё/Ё`, lowercase, strip, blank out bracketed
asides, blank out non-alphanumeric runs, collapse whitespace, strip. -/
def normalize_text (s : String) : String :=
  let l0 := (s.data.map nfdDecompose).flatten
  let l1 := l0.filter (fun c => !(isMnChar c))
  let l2 := l1.map yoFold
  let l3 := stripEnds (l2.map lowerChar)
  let l4 := subBrackets l3
  let l5 := subNonAlnum l4
  let l6 := collapseWs l5
  String.mk (stripEnds l6)

/-- Match of the `\s+или\s+` branch of `_SPLIT_RE` at the head of `l`
(case-insensitive, `и л и = U+0438 U+043B U+0438`): one or more
whitespace characters, the word, one or more whitespace characters;
returns the unconsumed suffix. -/
def matchOrSep (l : List Char) : Option (List Char) :=
  if (l.takeWhile isWsChar).isEmpty then none
  else
    match l.dropWhile isWsChar with
    | c1 :: c2 :: c3 :: rest =>
      if (lowerChar c1).toNat = 0x438 && (lowerChar c2).toNat = 0x43B &&
          (lowerChar c3).toNat = 0x438 then
        if (rest.takeWhile isWsChar).isEmpty then none
        else some (rest.dropWhile isWsChar)
      else none
    | _ => none

/-- Recursion core of `splitOnSeps` (structural on `fuel`, see
`subBracketsGo`). -/
def splitOnSepsGo : Nat → List Char → List (List Char)
  | _, [] => [[]]
  | 0, l => [l]
  | fuel + 1, c :: rest =>
    if c = '\n' || c = ';' || c = ',' || c = '/' then
      [] :: splitOnSepsGo fuel rest
    else
      match matchOrSep (c :: rest) with
      | some rest' => [] :: splitOnSepsGo fuel rest'
      | none =>
        match splitOnSepsGo fuel rest with
        | [] => [[c]]
        | f :: fs => (c :: f) :: fs

/-- `_SPLIT_RE.split(value)`: split on any of `\n ; , /` or on the
`\s+или\s+` separator, scanning left to right; the single-character class
is the regex's first alternative, so it is tried first. -/
def splitOnSeps (l : List Char) : List (List Char) :=
  splitOnSepsGo l.length l

/-- `_expand_candidates(values)`: for each non-empty value, split it on
the separators and collect the non-empty normalizations of the parts.
The Python `set` is modelled as a list; only membership is ever used. -/
def expand_candidates (values : List String) : List String :=
  values.foldl
    (fun out v =>
      if v = "" then out
      else
        (splitOnSeps v.data).foldl
          (fun out2 part =>
            let norm := normalize_text (String.mk part)
            if norm = "" then out2 else out2 ++ [norm])
          out)
    []

/-- `is_correct_answer(user_text, answer, zachet)` from `app/matcher.py`. -/
def is_correct_answer (user_text answer zachet : String) : Bool :=
  let user_norm := normalize_text user_text
  if user_norm = "" then false
  else
    let candidates := expand_candidates [answer, zachet]
    if candidates = [] then false
    else decide (user_norm ∈ candidates)

/-! ## `app/models.py` rows

Timestamps (`created_at`, `updated_at`, `used_at`, `started_at`,
`scheduled_next_at`) are omitted: no claim concerns them.  `models.py` in
the source tree defines `Pack`, `Question` and `ChatSession`;
`ChatQuestionUsage`, `ParserState`, `GameSessionLog` and the
`selected_*` columns of `ChatSession` are imported and used by
`services.py`/`parser.py` but their declarations are not in the tree, so
those shapes are modelled from the spec (§3 of the spec). -/

/-- A `questions` row (`Question` in `app/models.py`), restricted to the
columns the core operations read or write. -/
structure QuestionRow where
  question_id : Int
  pack_id : Int := 0
  number_in_pack : Int := 0
  answer : String := ""
  zachet : String := ""
  razdatka_pic_url : String := ""
  razdatka_text : String := ""
  likes : Int := 0
  take_num : Option Int := none
  take_den : Option Int := none
  take_percent : Option Rat := none
  pack_complexity_primary : Option Rat := none
  pack_complexity_secondary : Option Rat := none
  deriving Repr, DecidableEq

/-- A `chat_sessions` row (`ChatSession` in `app/models.py`).  Modelled
from the spec: the chat's selection-filter columns (`selected_difficulty`,
`selected_min_likes`, `selected_min_take_percent`) are used by
`services.py` but their column declarations are missing from the source
tree; per spec §3 they are the chat's selection filters, nullable, so
they are `Option`-valued here. -/
structure ChatSessionRow where
  chat_id : Int
  state : String := "IDLE"
  selected_difficulty : Option Int := none
  selected_min_likes : Option Int := some 1
  selected_min_take_percent : Option Rat := some 20
  current_question_id : Option Int := none
  current_question_message_id : Option Int := none
  lock_version : Int := 0
  session_asked_count : Nat := 0
  session_taken_count : Nat := 0
  session_complexity_primary_sum : Rat := 0
  session_complexity_secondary_sum : Rat := 0
  session_complexity_count : Nat := 0
  deriving Repr, DecidableEq

/-- Modelled from the spec: a `GameSessionLog` row (class missing from the
source tree) — append-only audit row capturing the chat id and the filter
parameters in effect; the start timestamp is omitted. -/
structure GameSessionLogRow where
  chat_id : Int
  selected_difficulty : Option Int
  selected_min_likes : Int
  selected_min_take_percent : Rat
  deriving Repr, DecidableEq

/-- A `packs` row (`Pack` in `app/models.py`); timestamps omitted. -/
structure PackRow where
  pack_id : Int
  title : String := ""
  pub_date : String := ""
  complexity_primary : Option Rat := none
  complexity_secondary : Option Rat := none
  source_url : String := ""
  deriving Repr, DecidableEq

/-- The database state.  `usages` models the `ChatQuestionUsage` table
(class missing from the source tree; modelled from the spec: an
append-only `(chat_id, question_id)` join with a uniqueness constraint on
the pair, so an insert raises `IntegrityError` exactly when the pair is
already present).  `parser_cursor` models the `ParserState` table (class
missing from the source tree; modelled from the spec: a single persisted
row keyed `"main"` holding the crawl cursor `cursor_pack_id`), `none`
meaning the row does not exist yet. -/
structure GameDb where
  questions : List QuestionRow := []
  usages : List (Int × Int) := []
  sessions : List ChatSessionRow := []
  session_logs : List GameSessionLogRow := []
  packs : List PackRow := []
  parser_cursor : Option Int := none
  deriving Repr, DecidableEq

/-! ## `app/services.py` — `GameService` -/

/-- `SessionStats` from `app/services.py`. -/
structure SessionStats where
  asked : Nat
  taken : Nat
  complexity_primary_avg : Option Rat
  complexity_secondary_avg : Option Rat
  deriving Repr, DecidableEq

/-- `get_or_create_session`: the chat's row, or a fresh `IDLE` row with
the default filters (min likes 1, min take 20.0). -/
def get_or_create_session (sessions : List ChatSessionRow) (chat_id : Int) :
    ChatSessionRow :=
  match sessions.find? (fun s => s.chat_id == chat_id) with
  | some s => s
  | none =>
    { chat_id := chat_id, state := "IDLE", selected_difficulty := none,
      selected_min_likes := some 1, selected_min_take_percent := some 20 }

/-- Write a session row back: replace the row with the same `chat_id`, or
append it when the chat had none (the `db.add`/`flush` of
`get_or_create_session`). -/
def putSession (sessions : List ChatSessionRow) (row : ChatSessionRow) :
    List ChatSessionRow :=
  if sessions.any (fun s => s.chat_id == row.chat_id) then
    sessions.map (fun s => if s.chat_id == row.chat_id then row else s)
  else sessions ++ [row]

/-- `_difficulty_score_expr`: both scores present → their mean, primary
only → primary, else the (possibly NULL) secondary. -/
def difficulty_score_expr (q : QuestionRow) : Option Rat :=
  match q.pack_complexity_primary, q.pack_complexity_secondary with
  | some a, some b => some ((a + b) / 2)
  | some a, none => some a
  | none, s => s

/-- The WHERE clause of `_build_questions_query` as a predicate on a
question row: not used by this chat, enough likes, a non-NULL take rate
at least the minimum, and — when a difficulty is selected — a non-NULL
difficulty score inside `[d - 0.5, d + 0.5)` (upper bound inclusive at
`d >= 10`). -/
def questionMatches (usages : List (Int × Int)) (chat_id : Int)
    (selected_difficulty : Option Int) (selected_min_likes : Int)
    (selected_min_take_percent : Rat) (q : QuestionRow) : Bool :=
  !(decide ((chat_id, q.question_id) ∈ usages)) &&
  decide (selected_min_likes ≤ q.likes) &&
  (match q.take_percent with
   | none => false
   | some t => decide (selected_min_take_percent ≤ t)) &&
  (match selected_difficulty with
   | none => true
   | some d =>
     match difficulty_score_expr q with
     | none => false
     | some score =>
       let lower : Rat := (d : Rat) - 1/2
       let upper : Rat := (d : Rat) + 1/2
       if d ≥ 10 then decide (lower ≤ score ∧ score ≤ upper)
       else decide (lower ≤ score ∧ score < upper))

/-- `_build_questions_query` as the list of rows satisfying the WHERE
clause. -/
def build_questions_query (db : GameDb) (chat_id : Int)
    (selected_difficulty : Option Int) (selected_min_likes : Int)
    (selected_min_take_percent : Rat) : List QuestionRow :=
  db.questions.filter
    (questionMatches db.usages chat_id selected_difficulty selected_min_likes
      selected_min_take_percent)

/-- `_next_question`: `ORDER BY random() LIMIT 1` over the query.  The
random draw is modelled by the index `r` selecting an element of the
candidate list; `none` is returned when the list does not have an `r`-th
element (in particular whenever the candidate list is empty). -/
def next_question (db : GameDb) (chat_id : Int)
    (selected_difficulty : Option Int) (selected_min_likes : Int)
    (selected_min_take_percent : Rat) (r : Nat) : Option QuestionRow :=
  (build_questions_query db chat_id selected_difficulty selected_min_likes
    selected_min_take_percent).get? r

/-- Python `x or d` for a nullable integer column (`None` and `0` are
falsy). -/
def pyOrInt (x : Option Int) (d : Int) : Int :=
  match x with
  | none => d
  | some v => if v = 0 then d else v

/-- Python `x or d` for a nullable float column. -/
def pyOrRat (x : Option Rat) (d : Rat) : Rat :=
  match x with
  | none => d
  | some v => if v = 0 then d else v

/-- The session mutations of `mark_question_published`'s successful
branch: `session_asked_count += 1`, and — when the question row was found
and carries at least one complexity score — `session_complexity_count +=
1` and each (possibly absent, then `0.0`) score added to its running
sum. -/
def markSessionUpdate (session : ChatSessionRow) (question : Option QuestionRow) :
    ChatSessionRow :=
  let session1 :=
    { session with session_asked_count := session.session_asked_count + 1 }
  match question with
  | some q =>
    if q.pack_complexity_primary.isSome || q.pack_complexity_secondary.isSome then
      { session1 with
        session_complexity_count := session1.session_complexity_count + 1,
        session_complexity_primary_sum := session1.session_complexity_primary_sum +
          (q.pack_complexity_primary.getD 0),
        session_complexity_secondary_sum := session1.session_complexity_secondary_sum +
          (q.pack_complexity_secondary.getD 0) }
    else session1
  | none => session1

/-- `mark_question_published(chat_id, question_id)` from
`app/services.py`: attempt the usage insert (the `IntegrityError` of the
uniqueness constraint is modelled as membership of the pair); on a
duplicate, roll back and leave the session counters alone; on a first
insert, append a `GameSessionLog` row when this is the session's first
asked question and apply `markSessionUpdate` to the session.  Returns
`inserted` and the updated database. -/
def mark_question_published (db : GameDb) (chat_id question_id : Int) :
    Bool × GameDb :=
  let inserted := !(decide ((chat_id, question_id) ∈ db.usages))
  let usages' := if inserted then db.usages ++ [(chat_id, question_id)] else db.usages
  let session := get_or_create_session db.sessions chat_id
  if inserted then
    let is_first_question_in_session := session.session_asked_count == 0
    let logs' :=
      if is_first_question_in_session then
        db.session_logs ++
          [{ chat_id := chat_id,
             selected_difficulty := session.selected_difficulty,
             selected_min_likes := pyOrInt session.selected_min_likes 1,
             selected_min_take_percent := pyOrRat session.selected_min_take_percent 20 }]
      else db.session_logs
    let question := db.questions.find? (fun q => q.question_id == question_id)
    let session2 := markSessionUpdate session question
    (true,
      { db with
        usages := usages',
        sessions := putSession db.sessions session2,
        session_logs := logs' })
  else
    (false, { db with usages := usages', sessions := putSession db.sessions session })

/-- `stop_game(chat_id)` from `app/services.py`: snapshot the session
statistics (each complexity average is the running sum divided by the
shared `session_complexity_count`, `None` when that count is zero), then
reset the session to `IDLE` with default filters. -/
def stop_game (db : GameDb) (chat_id : Int) : SessionStats × GameDb :=
  let session := get_or_create_session db.sessions chat_id
  let count := session.session_complexity_count
  let primary_avg : Option Rat :=
    if count ≠ 0 then some (session.session_complexity_primary_sum / count) else none
  let secondary_avg : Option Rat :=
    if count ≠ 0 then some (session.session_complexity_secondary_sum / count) else none
  let stats : SessionStats :=
    { asked := session.session_asked_count, taken := session.session_taken_count,
      complexity_primary_avg := primary_avg,
      complexity_secondary_avg := secondary_avg }
  let session' :=
    { session with
      state := "IDLE", selected_difficulty := none,
      selected_min_likes := some 1, selected_min_take_percent := some 20,
      current_question_id := none, current_question_message_id := none,
      lock_version := session.lock_version + 1 }
  (stats, { db with sessions := putSession db.sessions session' })

/-- Publishing a sequence of questions to a chat: iterated
`mark_question_published`. -/
def publish_all (db : GameDb) (chat_id : Int) (qids : List Int) : GameDb :=
  qids.foldl (fun d q => (mark_question_published d chat_id q).2) db

/-- Whether a question carries at least one complexity score (these are
the questions `mark_question_published` counts into
`session_complexity_count`). -/
def scoredQuestion (q : QuestionRow) : Bool :=
  q.pack_complexity_primary.isSome || q.pack_complexity_secondary.isSome

/-- The rows of the given question ids, in order. -/
def rowsOf (db : GameDb) (qids : List Int) : List QuestionRow :=
  qids.filterMap (fun i => db.questions.find? (fun q => q.question_id == i))

/-- Average of a dimension over only the questions with that dimension
defined — the reading of the claim under test for C3. -/
def avgOfDefined (get : QuestionRow → Option Rat) (qs : List QuestionRow) :
    Option Rat :=
  let defined := qs.filterMap get
  if defined.length = 0 then none else some (defined.sum / defined.length)

/-! ## `app/parser.py` — `GotQuestionsParser`

The HTTP layer is modelled by an oracle: for each pack id and attempt
number, the outcome `requests` would produce.  Payload dictionaries
become structures restricted to the keys the parser reads; a key that is
absent or of the wrong type is modelled by the value the code's
`isinstance`/truthiness guards reduce it to (empty list, `none`, `""`).
Wall-clock fields (`duration_sec`, timestamps) are omitted, and
`time.sleep` backoff delays are collected into a list of the slept
durations. -/

/-- The fetch-status string of `_fetch_pack_with_retry`: `"ok"`,
`"not_found"`, `f"http_{status}"` (`http none` standing for
`"http_unknown"`) or `"network_error"`. -/
inductive FetchStatus where
  | ok
  | not_found
  | http (status : Option Nat)
  | network_error
  deriving Repr, DecidableEq

/-- A question dictionary inside a pack payload, restricted to the keys
`_upsert_question`/`_calc_take` read.  `correct_answers`/`teams` entries
that are not ints are `none`; an absent or non-list value is `[]`. -/
structure QPayload where
  id : Int
  totalLikes : Option Int := none
  number : Option Int := none
  razdatkaPic : String := ""
  razdatkaText : String := ""
  answer : String := ""
  zachet : String := ""
  correct_answers : List (Option Int) := []
  teams : List (Option Int) := []
  deriving Repr, DecidableEq

/-- A pack payload restricted to the keys the parser reads; `trueDl`
entries that are not numbers are `none`, a tour that is not a dict or has
no `"questions"` list contributes `[]`. -/
structure PackPayload where
  id : Int
  title : String := ""
  pubDate : String := ""
  trueDl : List (Option Rat) := []
  tours : List (List QPayload) := []
  deriving Repr, DecidableEq

/-- Outcome of one `fetch_pack` attempt: a successful fetch (whose
payload may lack the `"pack"` marker, then `none`), an HTTP error with an
optional status code, or any other `requests.RequestException`. -/
inductive FetchAttempt where
  | ok (pack : Option PackPayload)
  | httpError (status : Option Nat)
  | netError
  deriving Repr

/-- `truedl[i] if len(truedl) > i and isinstance(truedl[i], (int, float))
else None`. -/
def dlGet (l : List (Option Rat)) (i : Nat) : Option Rat :=
  (l.get? i).join

/-- `ReplenishResult` from `app/parser.py` (`duration_sec` omitted; the
two per-level dictionaries are total functions that are zero off the
levels ever touched). -/
structure ReplenishResult where
  added_questions : Nat := 0
  ready_count : Nat := 0
  pages_scanned : Nat := 0
  packs_checked : Nat := 0
  packs_found : Nat := 0
  packs_not_found : Nat := 0
  packs_failed_http : Nat := 0
  network_errors : Nat := 0
  network_retries : Nat := 0
  parser_errors : Nat := 0
  blocked : Bool := false
  batch_start_pack_id : Option Int := none
  batch_end_pack_id : Option Int := none
  cursor_before : Option Int := none
  cursor_after : Option Int := none
  questions_seen_total : Nat := 0
  questions_existing : Nat := 0
  questions_filtered_likes : Nat := 0
  questions_filtered_bucket_missing : Nat := 0
  questions_added_by_level : Int → Nat := fun _ => 0

/-- One iteration of `_fetch_pack_with_retry`'s `while True` loop, given
the attempt's outcome: either a final `(pack, status, result)` (`inl`) or
a retry carrying the updated result and the linear backoff delay
`0.25 * (attempt + 1)` to sleep (`inr`) — the source increments `attempt`
before sleeping `0.25 * attempt`. -/
def fetchStep (outcome : FetchAttempt) (max_retries attempt : Nat)
    (result : ReplenishResult) :
    (Option PackPayload × FetchStatus × ReplenishResult) ⊕ (ReplenishResult × Rat) :=
  match outcome with
  | .ok pack => .inl (pack, .ok, result)
  | .httpError status =>
    if status = some 404 then .inl (none, .not_found, result)
    else
      let result :=
        if status = some 403 ∨ status = some 429 then
          { result with blocked := true }
        else result
      if (match status with | some s => decide (s < 500) | none => false) &&
          !(status = some 403 ∨ status = some 429 : Bool) then
        .inl (none, .http status, result)
      else if max_retries ≤ attempt then .inl (none, .http status, result)
      else
        .inr ({ result with network_retries := result.network_retries + 1 },
          (1/4 : Rat) * ((attempt : Rat) + 1))
  | .netError =>
    if max_retries ≤ attempt then .inl (none, .network_error, result)
    else
      .inr ({ result with network_retries := result.network_retries + 1 },
        (1/4 : Rat) * ((attempt : Rat) + 1))

/-- Recursion core of `_fetch_pack_with_retry`.  The loop re-enters only
while `attempt < max_retries`, so `fuel` (called with `max_retries`)
never reaches the `fuel = 0` retry arm, whose value is arbitrary.  Also
accumulates the list of slept backoff delays. -/
def fetchRetryGo (fetch : Nat → FetchAttempt) (max_retries : Nat) :
    Nat → Nat → ReplenishResult → List Rat →
      Option PackPayload × FetchStatus × ReplenishResult × List Rat
  | 0, attempt, result, sleeps =>
    (match fetchStep (fetch attempt) max_retries attempt result with
     | .inl out => (out.1, out.2.1, out.2.2, sleeps)
     | .inr rd => (none, .network_error, rd.1, sleeps))
  | fuel + 1, attempt, result, sleeps =>
    (match fetchStep (fetch attempt) max_retries attempt result with
     | .inl out => (out.1, out.2.1, out.2.2, sleeps)
     | .inr rd =>
       fetchRetryGo fetch max_retries fuel (attempt + 1) rd.1 (sleeps ++ [rd.2]))

/-- `_fetch_pack_with_retry(pack_id, result, max_retries=2)`; the oracle
`fetch` gives the outcome of each attempt for this pack id. -/
def fetch_pack_with_retry (fetch : Nat → FetchAttempt) (result : ReplenishResult)
    (max_retries : Nat) :
    Option PackPayload × FetchStatus × ReplenishResult × List Rat :=
  fetchRetryGo fetch max_retries max_retries 0 result []

/-- `_question_passes_filter(likes, take_num, take_den, take_percent)`. -/
def question_passes_filter (likes : Int) (take_num take_den : Option Int)
    (take_percent : Option Rat) : Bool :=
  if likes ≥ 1 then true
  else if (match take_den with | some d => decide (10 ≤ d) | none => false) &&
      (match take_percent with
       | some p => decide ((20 : Rat) ≤ p ∧ p ≤ 90)
       | none => false) then true
  else false

/-- `_calc_take(q)`: first entries of `correct_answers`/`teams`; the
percentage is defined only when both are ints and non-zero (Python
truthiness of `num`/`den`). -/
def calc_take (q : QPayload) : Option Int × Option Int × Option Rat :=
  match q.correct_answers with
  | [] => (none, none, none)
  | c0 :: _ =>
    match q.teams with
    | [] => (none, none, none)
    | t0 :: _ =>
      match c0, t0 with
      | some n, some d =>
        if n = 0 ∨ d = 0 then (c0, t0, none)
        else (c0, t0, some (((n : Rat) / (d : Rat)) * 100))
      | _, _ => (c0, t0, none)

/-- `_upsert_pack(db, pack)`: insert the pack row, or overwrite its
mutable fields when it exists. -/
def upsert_pack (db : GameDb) (pack : PackPayload) : GameDb :=
  let c1 := dlGet pack.trueDl 0
  let c2 := dlGet pack.trueDl 1
  let url := "https://gotquestions.online/pack/"
  match db.packs.find? (fun p => p.pack_id == pack.id) with
  | none =>
    { db with
      packs := db.packs ++
        [{ pack_id := pack.id, title := pack.title, pub_date := pack.pubDate,
           complexity_primary := c1, complexity_secondary := c2, source_url := url }] }
  | some _ =>
    { db with
      packs := db.packs.map (fun p =>
        if p.pack_id == pack.id then
          { p with
            title := pack.title, pub_date := pack.pubDate,
            complexity_primary := c1, complexity_secondary := c2, source_url := url }
        else p) }

/-- `_upsert_question(db, pack, q, ready_by_category, result)`: backfill
an existing row's missing distributed-material fields; otherwise admit
the question through the likes-or-take filter and the
derivable-difficulty-bucket requirement, insert it and bump the per-level
counters.  Returns whether a row was added, plus the updated state. -/
def upsert_question (db : GameDb) (pack : PackPayload) (q : QPayload)
    (ready : Int → Nat) (result : ReplenishResult) :
    Bool × GameDb × (Int → Nat) × ReplenishResult :=
  let likes : Int := q.totalLikes.getD 0
  match db.questions.find? (fun row => row.question_id == q.id) with
  | some existing =>
    let e1 :=
      if existing.razdatka_pic_url = "" ∧ q.razdatkaPic ≠ "" then
        { existing with razdatka_pic_url := q.razdatkaPic }
      else existing
    let e2 :=
      if e1.razdatka_text = "" ∧ q.razdatkaText ≠ "" then
        { e1 with razdatka_text := q.razdatkaText }
      else e1
    (false,
      { db with questions := db.questions.map (fun row =>
          if row.question_id == q.id then e2 else row) },
      ready,
      { result with questions_existing := result.questions_existing + 1 })
  | none =>
    let take := calc_take q
    if !(question_passes_filter likes take.1 take.2.1 take.2.2) then
      (false, db, ready,
        { result with questions_filtered_likes := result.questions_filtered_likes + 1 })
    else
      let c1 := dlGet pack.trueDl 0
      let c2 := dlGet pack.trueDl 1
      match difficulty_bucket c1 c2 with
      | none =>
        (false, db, ready,
          { result with questions_filtered_bucket_missing :=
              result.questions_filtered_bucket_missing + 1 })
      | some bucket =>
        let row : QuestionRow :=
          { question_id := q.id, pack_id := pack.id,
            number_in_pack := q.number.getD 0,
            answer := q.answer, zachet := q.zachet,
            razdatka_pic_url := q.razdatkaPic, razdatka_text := q.razdatkaText,
            likes := likes, take_num := take.1, take_den := take.2.1,
            take_percent := take.2.2,
            pack_complexity_primary := c1, pack_complexity_secondary := c2 }
        (true,
          { db with questions := db.questions ++ [row] },
          fun l => if l = bucket then ready l + 1 else ready l,
          { result with questions_added_by_level := fun l =>
              if l = bucket then result.questions_added_by_level l + 1
              else result.questions_added_by_level l })

/-- `count_ready_by_category(db)` as a function from level to count:
questions whose derived bucket equals the level. -/
def count_ready_by_category (db : GameDb) : Int → Nat :=
  fun level =>
    (db.questions.filter (fun q =>
      difficulty_bucket q.pack_complexity_primary q.pack_complexity_secondary ==
        some level)).length

/-- `sum(ready_by_category.values())`: the dictionary's keys are the
levels 1–10. -/
def readySum (ready : Int → Nat) : Nat :=
  ((List.range 10).map (fun k : Nat => ready ((k : Int) + 1))).sum

/-- `_get_or_create_state(db)`: the persisted cursor, creating the row
with the configured start pack id when absent. -/
def get_or_create_state (db : GameDb) (parser_cursor_start_pack_id : Int) :
    Int × GameDb :=
  match db.parser_cursor with
  | some c => (c, db)
  | none =>
    (parser_cursor_start_pack_id,
      { db with parser_cursor := some parser_cursor_start_pack_id })

/-- The body of the tours/questions double loop of
`replenish_cursor_batches` for one successfully fetched pack: upsert the
pack row, then upsert every question of every tour, counting seen and
added questions.  (The `except` arms counting `parser_errors` are
unreachable here: the modelled payload is always well-formed.) -/
def processPack (db : GameDb) (ready : Int → Nat) (result : ReplenishResult)
    (pack : PackPayload) : GameDb × (Int → Nat) × ReplenishResult :=
  let db := upsert_pack db pack
  pack.tours.foldl
    (fun acc tour =>
      tour.foldl
        (fun acc q =>
          let result1 :=
            { acc.2.2 with questions_seen_total := acc.2.2.questions_seen_total + 1 }
          let out := upsert_question acc.1 pack q acc.2.1 result1
          let result2 :=
            if out.1 then
              { out.2.2.2 with added_questions := out.2.2.2.added_questions + 1 }
            else out.2.2.2
          (out.2.1, out.2.2.1, result2))
        acc)
    (db, ready, result)

/-- One pack id of a batch: `result.packs_checked += 1`, fetch with
retry, classify the status exactly as the `continue` chain does, and
process the pack when one was found. -/
def processPackId (fetch : Int → Nat → FetchAttempt) (db : GameDb)
    (ready : Int → Nat) (result : ReplenishResult) (pack_id : Int) :
    GameDb × (Int → Nat) × ReplenishResult :=
  let result := { result with packs_checked := result.packs_checked + 1 }
  let fr := fetch_pack_with_retry (fetch pack_id) result 2
  let result := fr.2.2.1
  match fr.2.1 with
  | .not_found =>
    (db, ready, { result with packs_not_found := result.packs_not_found + 1 })
  | .http _ =>
    (db, ready,
      { result with
        packs_failed_http := result.packs_failed_http + 1,
        network_errors := result.network_errors + 1 })
  | .network_error =>
    (db, ready, { result with network_errors := result.network_errors + 1 })
  | .ok =>
    match fr.1 with
    | none =>
      (db, ready, { result with packs_not_found := result.packs_not_found + 1 })
    | some pack =>
      processPack db ready { result with packs_found := result.packs_found + 1 } pack

/-- The ids `range(batch_start, batch_end - 1, -1)`: descending from `a`
to `b` inclusive. -/
def descRange (a b : Int) : List Int :=
  (List.range (a - b + 1).toNat).map (fun k : Nat => a - (k : Int))

/-- State after the outer `while` loop of `replenish_cursor_batches`. -/
structure LoopOut where
  db : GameDb
  ready : Int → Nat
  result : ReplenishResult
  current : Int
  batches_done : Nat
  commits : List Int

/-- The outer `while batches_done < max_batches and current > 0` loop:
`fuel` is the number of batches still allowed (`max_batches -
batches_done`); each iteration processes the ids of one batch, then
persists the advanced cursor (`commits` records each committed cursor
value in order). -/
def replenishBatchLoop (fetch : Int → Nat → FetchAttempt) (batch_size : Int) :
    Nat → Int → GameDb → (Int → Nat) → ReplenishResult → Nat → List Int → LoopOut
  | 0, current, db, ready, result, batches_done, commits =>
    ⟨db, ready, result, current, batches_done, commits⟩
  | fuel + 1, current, db, ready, result, batches_done, commits =>
    if current ≤ 0 then ⟨db, ready, result, current, batches_done, commits⟩
    else
      let batch_start := current
      let batch_end := max (current - batch_size + 1) 1
      let result :=
        { result with
          batch_start_pack_id :=
            if result.batch_start_pack_id = none then some batch_start
            else result.batch_start_pack_id,
          batch_end_pack_id := some batch_end }
      let folded := (descRange batch_start batch_end).foldl
        (fun acc pid => processPackId fetch acc.1 acc.2.1 acc.2.2 pid)
        (db, ready, result)
      let current' := batch_end - 1
      let db' := { folded.1 with parser_cursor := some current' }
      replenishBatchLoop fetch batch_size fuel current' db' folded.2.1 folded.2.2
        (batches_done + 1) (commits ++ [current'])

/-- `replenish_cursor_batches(db, target_per_level, batch_size,
max_batches)` from `app/parser.py`.  Returns the result, the final
database, and the list of cursor values committed during the run.  The
`target_per_level` parameter is accepted (as in the source) and never
read by the body. -/
def replenish_cursor_batches (fetch : Int → Nat → FetchAttempt) (db : GameDb)
    (target_per_level : Nat) (batch_size : Int) (max_batches : Nat)
    (parser_cursor_start_pack_id : Int) :
    ReplenishResult × GameDb × List Int :=
  let ready := count_ready_by_category db
  let st := get_or_create_state db parser_cursor_start_pack_id
  let cursor := st.1
  let db := st.2
  let result : ReplenishResult :=
    { ready_count := readySum ready, cursor_before := some cursor,
      cursor_after := some cursor }
  if cursor ≤ 0 then (result, db, [])
  else
    let out := replenishBatchLoop fetch batch_size max_batches cursor db ready result 0 []
    ({ out.result with
       cursor_after := out.db.parser_cursor,
       ready_count := readySum out.ready,
       pages_scanned := out.batches_done },
     out.db, out.commits)

/-! ### Concrete fixtures used by witnesses and counterexamples -/

/-- Fixture: a selectable question (id 1). -/
def exQ1 : QuestionRow := { question_id := 1, likes := 1, take_percent := some 80 }

/-- Fixture: a selectable question (id 2). -/
def exQ2 : QuestionRow := { question_id := 2, likes := 1, take_percent := some 80 }

/-- Fixture: a two-question pool with no usage records. -/
def exDb : GameDb := { questions := [exQ1, exQ2] }

/-- Fixture: a question with only the primary complexity score. -/
def exQ3 : QuestionRow := { question_id := 3, pack_complexity_primary := some 6 }

/-- Fixture: a question with only the secondary complexity score. -/
def exQ4 : QuestionRow := { question_id := 4, pack_complexity_secondary := some 4 }

/-- Fixture: a pool whose two questions each carry one complexity
dimension. -/
def exDb2 : GameDb := { questions := [exQ3, exQ4] }

/-- Fixture: an external source where every pack id yields 404 on every
attempt. -/
def all404 : Int → Nat → FetchAttempt := fun _ _ => FetchAttempt.httpError (some 404)

/-- Fixture: a ready question of integer difficulty `k` (primary score
only). -/
def exReadyQ (k : Int) : QuestionRow :=
  { question_id := 100 + k, pack_complexity_primary := some (k : Rat) }

/-- Fixture: ten ready questions, one per difficulty bucket, with the
parser cursor persisted at pack id 5. -/
def exDb5 : GameDb :=
  { questions := [exReadyQ 1, exReadyQ 2, exReadyQ 3, exReadyQ 4, exReadyQ 5,
      exReadyQ 6, exReadyQ 7, exReadyQ 8, exReadyQ 9, exReadyQ 10],
    parser_cursor := some 5 }

/-- Fixture: a database whose persisted parser cursor is exhausted (0). -/
def exDb0 : GameDb := { parser_cursor := some 0 }

/-- Fixture: an empty database. -/
def exDbEmpty : GameDb := {}

/-- Fixture: a pack payload with a primary difficulty score of 5. -/
def exPack10 : PackPayload := { id := 50, trueDl := [some 5] }

/-- Fixture: a question payload with one like and no
`correct_answers`/`teams` statistics (so its take rate is undefined). -/
def exQPay10 : QPayload := { id := 500, totalLikes := some 1 }

/-- Fixture: the stored row `_upsert_question` produces for `exQPay10`
inside `exPack10`. -/
def exRow10 : QuestionRow :=
  { question_id := 500, pack_id := 50, number_in_pack := 0,
    answer := "", zachet := "", razdatka_pic_url := "", razdatka_text := "",
    likes := 1, take_num := none, take_den := none, take_percent := none,
    pack_complexity_primary := some 5, pack_complexity_secondary := none }

/-- The zero-effort result a caller receives when it finds a crawl already
in flight: `ReplenishResult(added_questions=0, ready_count=0,
pages_scanned=0)` as built in `PoolService.replenish_to_target` /
`run_manual_batch` (services.py), every other field at its dataclass
default. -/
def zeroEffortResult : ReplenishResult :=
  { added_questions := 0, ready_count := 0, pages_scanned := 0 }

/-- Phase of one caller of `PoolService.replenish_to_target` or
`run_manual_batch` (services.py lines 37-59).  `start`: the coroutine is
about to evaluate `self._replenish_lock.locked()`.  `awaitZero`: it saw
the lock held and is suspended in `async with self._replenish_lock` of the
zero-effort branch.  `crawling`: it holds the lock and the crawl body
(`await asyncio.to_thread(...)`) is in flight.  `doneCrawl`: it returned
the real crawl result and released the lock.  `doneZero`: it returned the
zero-effort `ReplenishResult(0, 0, 0)`. -/
inductive CallerPhase where
  | start : CallerPhase
  | awaitZero : CallerPhase
  | crawling : CallerPhase
  | doneCrawl : CallerPhase
  | doneZero : CallerPhase
deriving DecidableEq, Repr

/-- Process-wide state of the single-flight gate: whether
`self._replenish_lock` is held, and the phase of every caller spawned so
far (one list entry per caller, in spawn order). -/
structure GateState where
  held : Bool
  tasks : List CallerPhase
deriving DecidableEq, Repr

/-- One event-loop step of the gate.  `asyncio.Lock.acquire` returns
without yielding when the lock is free, so the `locked()` test and the
acquisition in `replenish_to_target`'s crawl branch form one atomic step
(`checkFree`); the zero-effort branch's acquire-return-release likewise
runs without an intervening await once the lock is free (`zeroReturn`).
The crawl body awaits a thread, so `crawling` is a separate phase that
ends with `finishCrawl` releasing the lock. -/
inductive GateStep : GateState → GateState → Prop where
  | spawn (s : GateState) :
      GateStep s { held := s.held, tasks := s.tasks ++ [CallerPhase.start] }
  | checkFree (s : GateState) (i : Nat)
      (h : s.tasks.get? i = some CallerPhase.start) (hf : s.held = false) :
      GateStep s { held := true, tasks := s.tasks.set i CallerPhase.crawling }
  | checkBusy (s : GateState) (i : Nat)
      (h : s.tasks.get? i = some CallerPhase.start) (ht : s.held = true) :
      GateStep s { held := s.held, tasks := s.tasks.set i CallerPhase.awaitZero }
  | finishCrawl (s : GateState) (i : Nat)
      (h : s.tasks.get? i = some CallerPhase.crawling) :
      GateStep s { held := false, tasks := s.tasks.set i CallerPhase.doneCrawl }
  | zeroReturn (s : GateState) (i : Nat)
      (h : s.tasks.get? i = some CallerPhase.awaitZero) (hf : s.held = false) :
      GateStep s { held := s.held, tasks := s.tasks.set i CallerPhase.doneZero }

/-- States reachable from the initial state (lock free, no callers). -/
inductive GateReachable : GateState → Prop where
  | init : GateReachable { held := false, tasks := [] }
  | step {s t : GateState} : GateReachable s → GateStep s t → GateReachable t

/-- Number of callers currently in the `crawling` phase. -/
def crawlCount : List CallerPhase → Nat
  | [] => 0
  | CallerPhase.crawling :: tl => crawlCount tl + 1
  | _ :: tl => crawlCount tl

/-- Contribution of a single phase to `crawlCount`. -/
def crawlOne : CallerPhase → Nat
  | CallerPhase.crawling => 1
  | _ => 0

end CHGK

namespace CHGK

/-- C6: `difficulty_bucket` is the rounded mean of the scores that are
present, clamped into `[1, 10]`; it is `None` exactly when both scores are
absent; and on the spec's concrete examples `bucket(6.4, None) = 6`,
`bucket(6.6, None) = 7`, `bucket(None, None)` is undefined and
`bucket(11, 11) = 10`. -/
theorem C6_difficulty_bucket :
    (∀ p s : Option Rat, difficulty_bucket p s = none ↔ (p = none ∧ s = none)) ∧
    (∀ (p s : Option Rat) (b : Int), difficulty_bucket p s = some b → 1 ≤ b ∧ b ≤ 10) ∧
    (∀ (p s : Option Rat) (sc : Rat), difficulty_score p s = some sc →
      difficulty_bucket p s = some (max 1 (min 10 (pythonRound sc)))) ∧
    difficulty_bucket (some (32/5)) none = some 6 ∧
    difficulty_bucket (some (33/5)) none = some 7 ∧
    difficulty_bucket none none = none ∧
    difficulty_bucket (some 11) (some 11) = some 10 := by
  have hmain : ∀ (p s : Option Rat) (sc : Rat), difficulty_score p s = some sc →
      difficulty_bucket p s = some (max 1 (min 10 (pythonRound sc))) := by
    intro p s sc h
    have hb : difficulty_bucket p s =
        some (if pythonRound sc < 1 then 1 else if pythonRound sc > 10 then 10
          else pythonRound sc) := by
      unfold difficulty_bucket
      rw [h]
    rw [hb]
    congr 1
    rcases lt_trichotomy (pythonRound sc) 1 with h1 | h1 | h1 <;>
      rcases lt_trichotomy (pythonRound sc) 10 with h2 | h2 | h2 <;> omega
  have hround : ∀ (x : Rat) (f : Int), ⌊x⌋ = f →
      pythonRound x = (if x - f < 1/2 then f
        else if 1/2 < x - f then f + 1 else if f % 2 = 0 then f else f + 1) := by
    intro x f hf
    unfold pythonRound
    rw [hf]
  have h64 : difficulty_bucket (some (32/5)) none = some 6 := by
    have hf : ⌊(32/5 : Rat)⌋ = 6 := by
      rw [Int.floor_eq_iff]
      norm_num
    have := hround (32/5) 6 hf
    rw [hmain (some (32/5)) none (32/5) rfl, this]
    norm_num
  have h66 : difficulty_bucket (some (33/5)) none = some 7 := by
    have hf : ⌊(33/5 : Rat)⌋ = 6 := by
      rw [Int.floor_eq_iff]
      norm_num
    have := hround (33/5) 6 hf
    rw [hmain (some (33/5)) none (33/5) rfl, this]
    norm_num
  have h11 : difficulty_bucket (some 11) (some 11) = some 10 := by
    have hsc : difficulty_score (some 11) (some 11) = some 11 := by
      unfold difficulty_score
      norm_num
    have hf : ⌊(11 : Rat)⌋ = 11 := by
      rw [Int.floor_eq_iff]
      norm_num
    have := hround 11 11 hf
    rw [hmain (some 11) (some 11) 11 hsc, this]
    norm_num
  refine ⟨?_, ?_, hmain, h64, h66, rfl, h11⟩
  · intro p s
    cases p <;> cases s <;> simp [difficulty_bucket, difficulty_score]
  · intro p s b h
    unfold difficulty_bucket at h
    cases hsc : difficulty_score p s with
    | none => rw [hsc] at h; exact absurd h (by simp)
    | some sc =>
      rw [hsc] at h
      simp only [Option.some.injEq] at h
      split at h <;> [omega; skip]
      split at h <;> omega

/-- Witness for C6 at a concrete input: the clamp formula evaluated at
score 2. -/
theorem C6_difficulty_bucket_witness :
    difficulty_bucket (some 2) none = some (max 1 (min 10 (pythonRound 2))) :=
  C6_difficulty_bucket.2.2.1 (some 2) none 2 rfl

/-- C5: `is_correct_answer` accepts exactly the non-empty normalized user
texts that are members of the candidate set obtained by splitting the
answer and zachet strings on the separators and normalizing each
fragment; on the spec's examples it is case- and diacritic-insensitive,
accepts a listed alias and rejects a near-miss. -/
theorem C5_is_correct_answer :
    (∀ u a z : String, is_correct_answer u a z = true ↔
      (normalize_text u ≠ "" ∧ normalize_text u ∈ expand_candidates [a, z])) ∧
    is_correct_answer "Paris" "Paris" "" = true ∧
    is_correct_answer "PARIS" "paris" "" = true ∧
    is_correct_answer "Parris" "Paris" "" = false ∧
    is_correct_answer "London" "Paris" "London; Rome" = true ∧
    is_correct_answer "Éclair" "eclair" "" = true := by
  refine ⟨?_, by decide, by decide, by decide, by decide, by decide⟩
  intro u a z
  unfold is_correct_answer
  by_cases h1 : normalize_text u = ""
  · simp [h1]
  · by_cases h2 : expand_candidates [a, z] = []
    · simp [h1, h2]
    · simp [h1, h2]

/-- Witness for C5: the membership characterization applied at the
concrete input `("Paris", "Paris", "")`. -/
theorem C5_is_correct_answer_witness :
    is_correct_answer "Paris" "Paris" "" = true :=
  (C5_is_correct_answer.1 "Paris" "Paris" "").mpr ⟨by decide, by decide⟩

lemma mark_questions_eq (db : GameDb) (C Q : Int) :
    ((mark_question_published db C Q).2).questions = db.questions := by
  unfold mark_question_published
  by_cases h : (C, Q) ∈ db.usages <;> simp [h]

lemma mark_usages_mem (db : GameDb) (C Q : Int) :
    (C, Q) ∈ ((mark_question_published db C Q).2).usages := by
  unfold mark_question_published
  by_cases h : (C, Q) ∈ db.usages <;> simp [h]

lemma mark_usages_mem_other (db : GameDb) (C Q C2 x : Int) (hne : C2 ≠ C) :
    ((C2, x) ∈ ((mark_question_published db C Q).2).usages) ↔
      ((C2, x) ∈ db.usages) := by
  unfold mark_question_published
  by_cases h : (C, Q) ∈ db.usages
  · simp [h]
  · simp [h, List.mem_append, Prod.mk.injEq, hne]

lemma find?_map_replace (sessions : List ChatSessionRow) (row : ChatSessionRow)
    (h : sessions.any (fun s => s.chat_id == row.chat_id) = true) :
    (sessions.map (fun s => if s.chat_id == row.chat_id then row else s)).find?
      (fun s => s.chat_id == row.chat_id) = some row := by
  induction sessions with
  | nil => simp at h
  | cons s rest ih =>
    simp only [List.any_cons, Bool.or_eq_true] at h
    simp only [List.map_cons]
    by_cases hs : (s.chat_id == row.chat_id) = true
    · rw [if_pos hs]
      simp [List.find?]
    · rw [if_neg hs]
      have hsf : (s.chat_id == row.chat_id) = false := by
        simpa using hs
      simp only [List.find?, hsf]
      rcases h with h | h
      · exact absurd h hs
      · exact ih h

lemma find?_append_fresh (sessions : List ChatSessionRow) (row : ChatSessionRow)
    (h : sessions.any (fun s => s.chat_id == row.chat_id) = false) :
    (sessions ++ [row]).find? (fun s => s.chat_id == row.chat_id) = some row := by
  induction sessions with
  | nil => simp [List.find?]
  | cons s rest ih =>
    simp only [List.any_cons, Bool.or_eq_false_iff] at h
    rw [List.cons_append]
    simp only [List.find?, h.1]
    exact ih h.2

/-- Reading back a session row just written by `putSession` yields exactly
that row. -/
lemma get_or_create_putSession (sessions : List ChatSessionRow) (row : ChatSessionRow) :
    get_or_create_session (putSession sessions row) row.chat_id = row := by
  unfold get_or_create_session putSession
  by_cases hany : sessions.any (fun s => s.chat_id == row.chat_id) = true
  · rw [if_pos hany, find?_map_replace sessions row hany]
  · rw [if_neg hany, find?_append_fresh sessions row (by simpa using hany)]

lemma get_or_create_chat_id (sessions : List ChatSessionRow) (chat_id : Int) :
    (get_or_create_session sessions chat_id).chat_id = chat_id := by
  unfold get_or_create_session
  cases hf : sessions.find? (fun s => s.chat_id == chat_id) with
  | none => rfl
  | some s =>
    have := List.find?_some hf
    simpa using this

/-- Complete characterization of one `mark_question_published` call:
return value, usage table, log table, and the published chat's session
row after the call. -/
lemma mark_summary (db : GameDb) (C Q : Int) :
    ((mark_question_published db C Q).1 = true ↔ (C, Q) ∉ db.usages) ∧
    ((mark_question_published db C Q).2).usages =
      (if (C, Q) ∈ db.usages then db.usages else db.usages ++ [(C, Q)]) ∧
    ((mark_question_published db C Q).2).questions = db.questions ∧
    ((C, Q) ∈ db.usages →
      ((mark_question_published db C Q).2).session_logs = db.session_logs ∧
      get_or_create_session ((mark_question_published db C Q).2).sessions C =
        get_or_create_session db.sessions C) ∧
    ((C, Q) ∉ db.usages →
      ((mark_question_published db C Q).2).session_logs =
        (if (get_or_create_session db.sessions C).session_asked_count = 0 then
          db.session_logs ++
            [{ chat_id := C,
               selected_difficulty :=
                 (get_or_create_session db.sessions C).selected_difficulty,
               selected_min_likes :=
                 pyOrInt (get_or_create_session db.sessions C).selected_min_likes 1,
               selected_min_take_percent :=
                 pyOrRat (get_or_create_session db.sessions C).selected_min_take_percent 20 }]
         else db.session_logs) ∧
      get_or_create_session ((mark_question_published db C Q).2).sessions C =
        (markSessionUpdate (get_or_create_session db.sessions C)
          (db.questions.find? (fun q => q.question_id == Q)))) := by
  have hcid : ∀ question, (markSessionUpdate (get_or_create_session db.sessions C)
      question).chat_id = C := by
    intro question
    unfold markSessionUpdate
    cases question with
    | none => simpa using get_or_create_chat_id db.sessions C
    | some q =>
      dsimp only
      split
      · simpa using get_or_create_chat_id db.sessions C
      · simpa using get_or_create_chat_id db.sessions C
  unfold mark_question_published
  by_cases h : (C, Q) ∈ db.usages
  · refine ⟨by simp [h], by simp [h], by simp [h], fun _ => ⟨by simp [h], ?_⟩,
      fun hn => absurd h hn⟩
    have heq := get_or_create_putSession db.sessions (get_or_create_session db.sessions C)
    rw [get_or_create_chat_id] at heq
    simp [h, heq]
  · refine ⟨by simp [h], by simp [h], by simp [h], fun hm => absurd hm h,
      fun _ => ⟨?_, ?_⟩⟩
    · by_cases h2 : (get_or_create_session db.sessions C).session_asked_count = 0
      · simp [h, h2]
      · simp [h, h2]
    · have heq := get_or_create_putSession db.sessions
        (markSessionUpdate (get_or_create_session db.sessions C)
          (db.questions.find? (fun q => q.question_id == Q)))
      rw [hcid] at heq
      simp [h, heq]

lemma markSessionUpdate_asked (s : ChatSessionRow) (qo : Option QuestionRow) :
    (markSessionUpdate s qo).session_asked_count = s.session_asked_count + 1 := by
  unfold markSessionUpdate
  cases qo with
  | none => rfl
  | some q =>
    dsimp only
    split <;> rfl

lemma markSessionUpdate_taken (s : ChatSessionRow) (qo : Option QuestionRow) :
    (markSessionUpdate s qo).session_taken_count = s.session_taken_count := by
  unfold markSessionUpdate
  cases qo with
  | none => rfl
  | some q =>
    dsimp only
    split <;> rfl

lemma markSessionUpdate_none (s : ChatSessionRow) :
    (markSessionUpdate s none).session_complexity_count = s.session_complexity_count ∧
    (markSessionUpdate s none).session_complexity_primary_sum =
      s.session_complexity_primary_sum ∧
    (markSessionUpdate s none).session_complexity_secondary_sum =
      s.session_complexity_secondary_sum :=
  ⟨rfl, rfl, rfl⟩

lemma markSessionUpdate_scored (s : ChatSessionRow) (q : QuestionRow)
    (h : scoredQuestion q = true) :
    (markSessionUpdate s (some q)).session_complexity_count =
      s.session_complexity_count + 1 ∧
    (markSessionUpdate s (some q)).session_complexity_primary_sum =
      s.session_complexity_primary_sum + q.pack_complexity_primary.getD 0 ∧
    (markSessionUpdate s (some q)).session_complexity_secondary_sum =
      s.session_complexity_secondary_sum + q.pack_complexity_secondary.getD 0 := by
  unfold markSessionUpdate
  dsimp only
  rw [if_pos (by simpa [scoredQuestion] using h)]
  exact ⟨rfl, rfl, rfl⟩

lemma markSessionUpdate_unscored (s : ChatSessionRow) (q : QuestionRow)
    (h : scoredQuestion q = false) :
    (markSessionUpdate s (some q)).session_complexity_count =
      s.session_complexity_count ∧
    (markSessionUpdate s (some q)).session_complexity_primary_sum =
      s.session_complexity_primary_sum ∧
    (markSessionUpdate s (some q)).session_complexity_secondary_sum =
      s.session_complexity_secondary_sum := by
  unfold markSessionUpdate
  dsimp only
  rw [if_neg (by simpa [scoredQuestion] using h)]
  exact ⟨rfl, rfl, rfl⟩

/-- C7: `mark_question_published` inserts the usage pair; a duplicate is
detected and leaves counters, logs and usages alone; a first insertion
increments the asked-count, appends a `GameSessionLog` row exactly when
the session had asked nothing yet, and rolls the complexity count and
running sums exactly when the published question carries a score. -/
theorem C7_mark_question_published (db : GameDb) (C Q : Int) :
    ((mark_question_published db C Q).1 = true ↔ (C, Q) ∉ db.usages) ∧
    (C, Q) ∈ ((mark_question_published db C Q).2).usages ∧
    ((C, Q) ∈ db.usages →
      (mark_question_published db C Q).1 = false ∧
      ((mark_question_published db C Q).2).usages = db.usages ∧
      ((mark_question_published db C Q).2).session_logs = db.session_logs ∧
      get_or_create_session ((mark_question_published db C Q).2).sessions C =
        get_or_create_session db.sessions C) ∧
    ((C, Q) ∉ db.usages →
      ((mark_question_published db C Q).2).usages = db.usages ++ [(C, Q)] ∧
      (get_or_create_session ((mark_question_published db C Q).2).sessions C).session_asked_count =
        (get_or_create_session db.sessions C).session_asked_count + 1 ∧
      ((mark_question_published db C Q).2).session_logs.length =
        db.session_logs.length +
          (if (get_or_create_session db.sessions C).session_asked_count = 0 then 1 else 0) ∧
      (∀ q, db.questions.find? (fun x => x.question_id == Q) = some q →
        (scoredQuestion q = true →
          (get_or_create_session ((mark_question_published db C Q).2).sessions C).session_complexity_count =
            (get_or_create_session db.sessions C).session_complexity_count + 1 ∧
          (get_or_create_session ((mark_question_published db C Q).2).sessions C).session_complexity_primary_sum =
            (get_or_create_session db.sessions C).session_complexity_primary_sum +
              q.pack_complexity_primary.getD 0 ∧
          (get_or_create_session ((mark_question_published db C Q).2).sessions C).session_complexity_secondary_sum =
            (get_or_create_session db.sessions C).session_complexity_secondary_sum +
              q.pack_complexity_secondary.getD 0) ∧
        (scoredQuestion q = false →
          (get_or_create_session ((mark_question_published db C Q).2).sessions C).session_complexity_count =
            (get_or_create_session db.sessions C).session_complexity_count ∧
          (get_or_create_session ((mark_question_published db C Q).2).sessions C).session_complexity_primary_sum =
            (get_or_create_session db.sessions C).session_complexity_primary_sum ∧
          (get_or_create_session ((mark_question_published db C Q).2).sessions C).session_complexity_secondary_sum =
            (get_or_create_session db.sessions C).session_complexity_secondary_sum))) := by
  obtain ⟨m1, m2, m3, m4, m5⟩ := mark_summary db C Q
  refine ⟨m1, mark_usages_mem db C Q, ?_, ?_⟩
  · intro hm
    refine ⟨?_, ?_, (m4 hm).1, (m4 hm).2⟩
    · cases hb : (mark_question_published db C Q).1 with
      | false => rfl
      | true => exact absurd hm (m1.mp hb)
    · rw [m2, if_pos hm]
  · intro hm
    have hlogs := (m5 hm).1
    have hsess := (m5 hm).2
    refine ⟨by rw [m2, if_neg hm], ?_, ?_, ?_⟩
    · rw [hsess, markSessionUpdate_asked]
    · rw [hlogs]
      by_cases h2 : (get_or_create_session db.sessions C).session_asked_count = 0
      · simp [h2]
      · simp [h2]
    · intro q hq
      rw [hsess, hq]
      exact ⟨fun hs => markSessionUpdate_scored _ q hs,
        fun hs => markSessionUpdate_unscored _ q hs⟩

lemma publish_all_summary (chat : Int) :
    ∀ (qids : List Int) (db : GameDb), qids.Nodup →
      (∀ i ∈ qids, (chat, i) ∉ db.usages) →
      (publish_all db chat qids).questions = db.questions ∧
      (publish_all db chat qids).usages =
        db.usages ++ qids.map (fun i => (chat, i)) ∧
      (get_or_create_session (publish_all db chat qids).sessions chat).session_asked_count =
        (get_or_create_session db.sessions chat).session_asked_count + qids.length ∧
      (get_or_create_session (publish_all db chat qids).sessions chat).session_taken_count =
        (get_or_create_session db.sessions chat).session_taken_count ∧
      (get_or_create_session (publish_all db chat qids).sessions chat).session_complexity_count =
        (get_or_create_session db.sessions chat).session_complexity_count +
          ((rowsOf db qids).filter scoredQuestion).length ∧
      (get_or_create_session (publish_all db chat qids).sessions chat).session_complexity_primary_sum =
        (get_or_create_session db.sessions chat).session_complexity_primary_sum +
          ((rowsOf db qids).map (fun q => q.pack_complexity_primary.getD 0)).sum ∧
      (get_or_create_session (publish_all db chat qids).sessions chat).session_complexity_secondary_sum =
        (get_or_create_session db.sessions chat).session_complexity_secondary_sum +
          ((rowsOf db qids).map (fun q => q.pack_complexity_secondary.getD 0)).sum := by
  intro qids
  induction qids with
  | nil =>
    intro db _ _
    refine ⟨rfl, by simp [publish_all], by simp [publish_all], rfl, ?_, ?_, ?_⟩ <;>
      simp [publish_all, rowsOf]
  | cons i rest ih =>
    intro db hnodup hunused
    have hmem : (chat, i) ∉ db.usages := hunused i (List.mem_cons_self _ _)
    obtain ⟨m1, m2, m3, m4, m5⟩ := mark_summary db chat i
    have hsess := (m5 hmem).2
    have husages1 : ((mark_question_published db chat i).2).usages =
        db.usages ++ [(chat, i)] := by
      rw [m2, if_neg hmem]
    have hrestub : ∀ j ∈ rest, (chat, j) ∉ ((mark_question_published db chat i).2).usages := by
      intro j hj hmemj
      rw [husages1] at hmemj
      rcases List.mem_append.mp hmemj with hx | hx
      · exact hunused j (List.mem_cons_of_mem _ hj) hx
      · have hji : (chat, j) = (chat, i) := List.mem_singleton.mp hx
        have hj2 : j = i := by
          injection hji
        exact (List.nodup_cons.mp hnodup).1 (hj2 ▸ hj)
    obtain ⟨i1, i2, i3, i4, i5, i6, i7⟩ :=
      ih ((mark_question_published db chat i).2) (List.nodup_cons.mp hnodup).2 hrestub
    have hpa : publish_all db chat (i :: rest) =
        publish_all ((mark_question_published db chat i).2) chat rest := rfl
    have hrows : rowsOf ((mark_question_published db chat i).2) rest = rowsOf db rest := by
      unfold rowsOf
      rw [m3]
    rw [hpa] at *
    refine ⟨by rw [i1, m3], ?_, ?_, ?_, ?_, ?_, ?_⟩
    · rw [i2, husages1]
      simp [List.map_cons, List.append_assoc]
    · rw [i3, hsess, markSessionUpdate_asked]
      simp only [List.length_cons]
      omega
    · rw [i4, hsess, markSessionUpdate_taken]
    · rw [i5, hrows, hsess]
      cases hf : db.questions.find? (fun q => q.question_id == i) with
      | none =>
        have hr : rowsOf db (i :: rest) = rowsOf db rest := by
          simp [rowsOf, List.filterMap_cons, hf]
        rw [hr, (markSessionUpdate_none _).1]
      | some q =>
        have hr : rowsOf db (i :: rest) = q :: rowsOf db rest := by
          simp [rowsOf, List.filterMap_cons, hf]
        rw [hr]
        cases hscored : scoredQuestion q with
        | true =>
          rw [(markSessionUpdate_scored _ q hscored).1]
          simp [List.filter_cons, hscored]
          omega
        | false =>
          rw [(markSessionUpdate_unscored _ q hscored).1]
          simp [List.filter_cons, hscored]
    · rw [i6, hrows, hsess]
      cases hf : db.questions.find? (fun q => q.question_id == i) with
      | none =>
        have hr : rowsOf db (i :: rest) = rowsOf db rest := by
          simp [rowsOf, List.filterMap_cons, hf]
        rw [hr, (markSessionUpdate_none _).2.1]
      | some q =>
        have hr : rowsOf db (i :: rest) = q :: rowsOf db rest := by
          simp [rowsOf, List.filterMap_cons, hf]
        rw [hr]
        cases hscored : scoredQuestion q with
        | true =>
          rw [(markSessionUpdate_scored _ q hscored).2.1]
          simp only [List.map_cons, List.sum_cons]
          ring
        | false =>
          rw [(markSessionUpdate_unscored _ q hscored).2.1]
          have hz : q.pack_complexity_primary = none := by
            unfold scoredQuestion at hscored
            cases hq : q.pack_complexity_primary with
            | none => rfl
            | some v =>
              rw [hq] at hscored
              simp at hscored
          simp only [List.map_cons, List.sum_cons, hz, Option.getD_none]
          ring
    · rw [i7, hrows, hsess]
      cases hf : db.questions.find? (fun q => q.question_id == i) with
      | none =>
        have hr : rowsOf db (i :: rest) = rowsOf db rest := by
          simp [rowsOf, List.filterMap_cons, hf]
        rw [hr, (markSessionUpdate_none _).2.2]
      | some q =>
        have hr : rowsOf db (i :: rest) = q :: rowsOf db rest := by
          simp [rowsOf, List.filterMap_cons, hf]
        rw [hr]
        cases hscored : scoredQuestion q with
        | true =>
          rw [(markSessionUpdate_scored _ q hscored).2.2]
          simp only [List.map_cons, List.sum_cons]
          ring
        | false =>
          rw [(markSessionUpdate_unscored _ q hscored).2.2]
          have hz : q.pack_complexity_secondary = none := by
            unfold scoredQuestion at hscored
            cases hq : q.pack_complexity_secondary with
            | none => rfl
            | some v =>
              rw [hq] at hscored
              simp at hscored
          simp only [List.map_cons, List.sum_cons, hz, Option.getD_none]
          ring

lemma stop_game_stats (db : GameDb) (chat : Int) :
    (stop_game db chat).1.asked =
      (get_or_create_session db.sessions chat).session_asked_count ∧
    (stop_game db chat).1.taken =
      (get_or_create_session db.sessions chat).session_taken_count ∧
    (stop_game db chat).1.complexity_primary_avg =
      (if (get_or_create_session db.sessions chat).session_complexity_count ≠ 0 then
        some ((get_or_create_session db.sessions chat).session_complexity_primary_sum /
          ((get_or_create_session db.sessions chat).session_complexity_count : Rat))
       else none) ∧
    (stop_game db chat).1.complexity_secondary_avg =
      (if (get_or_create_session db.sessions chat).session_complexity_count ≠ 0 then
        some ((get_or_create_session db.sessions chat).session_complexity_secondary_sum /
          ((get_or_create_session db.sessions chat).session_complexity_count : Rat))
       else none) :=
  ⟨rfl, rfl, rfl, rfl⟩

/-- Counterexample for C3.  Chat 9 is served question 3 (primary score 6,
no secondary) and question 4 (secondary score 4, no primary).  The claim
says the primary average is taken over only the questions with a defined
primary score, i.e. `6`; the code divides the primary running sum (an
absent primary contributes `0.0`) by the shared scored-question count and
returns `3`. -/
theorem C3_counterexample_shared_divisor :
    (stop_game (publish_all exDb2 9 [3, 4]) 9).1.complexity_primary_avg = some 3 ∧
    avgOfDefined (fun q => q.pack_complexity_primary) (rowsOf exDb2 [3, 4]) = some 6 ∧
    (stop_game (publish_all exDb2 9 [3, 4]) 9).1.complexity_primary_avg ≠
      avgOfDefined (fun q => q.pack_complexity_primary) (rowsOf exDb2 [3, 4]) := by
  obtain ⟨_, _, _, _, p5, p6, _⟩ :=
    publish_all_summary 9 [3, 4] exDb2 (by decide) (by decide)
  have hrows : rowsOf exDb2 [3, 4] = [exQ3, exQ4] := rfl
  have hbase : get_or_create_session exDb2.sessions 9 =
      { chat_id := 9, state := "IDLE", selected_difficulty := none,
        selected_min_likes := some 1, selected_min_take_percent := some 20 } := rfl
  have hcount : (get_or_create_session (publish_all exDb2 9 [3, 4]).sessions 9).session_complexity_count = 2 := by
    rw [p5, hrows, hbase]
    decide
  have hpsum : (get_or_create_session (publish_all exDb2 9 [3, 4]).sessions 9).session_complexity_primary_sum = 6 := by
    rw [p6, hrows, hbase]
    show (0 : Rat) + ((exQ3.pack_complexity_primary.getD 0) +
      ((exQ4.pack_complexity_primary.getD 0) + 0)) = 6
    norm_num [exQ3, exQ4]
  have havg : (stop_game (publish_all exDb2 9 [3, 4]) 9).1.complexity_primary_avg = some 3 := by
    rw [(stop_game_stats (publish_all exDb2 9 [3, 4]) 9).2.2.1, hcount, hpsum]
    norm_num
  have hspec : avgOfDefined (fun q => q.pack_complexity_primary) (rowsOf exDb2 [3, 4]) =
      some 6 := by
    rw [hrows]
    show avgOfDefined (fun q => q.pack_complexity_primary) [exQ3, exQ4] = some 6
    norm_num [avgOfDefined, exQ3, exQ4, List.filterMap]
  refine ⟨havg, hspec, ?_⟩
  rw [havg, hspec]
  intro h
  have : (3 : Rat) = 6 := Option.some.inj h
  norm_num at this

/-- C3 amended: for a fresh session, `stop_game` after publishing the
(distinct, previously unused) questions `qids` returns asked-count
`qids.length`, correct-count 0, and for each complexity dimension the sum
of that dimension's scores (an absent score contributing `0.0`) divided
by the single shared count of asked questions that carried at least one
score — `None` when no asked question carried any score; the divisor is
tracked separately from the asked-count. -/
theorem C3_stop_game_amended (db : GameDb) (chat : Int) (qids : List Int)
    (hfresh : ∀ s ∈ db.sessions, s.chat_id = chat →
      s.session_asked_count = 0 ∧ s.session_taken_count = 0 ∧
      s.session_complexity_count = 0 ∧ s.session_complexity_primary_sum = 0 ∧
      s.session_complexity_secondary_sum = 0)
    (hnodup : qids.Nodup)
    (hunused : ∀ i ∈ qids, (chat, i) ∉ db.usages) :
    (stop_game (publish_all db chat qids) chat).1.asked = qids.length ∧
    (stop_game (publish_all db chat qids) chat).1.taken = 0 ∧
    (stop_game (publish_all db chat qids) chat).1.complexity_primary_avg =
      (if ((rowsOf db qids).filter scoredQuestion).length = 0 then none
       else some (((rowsOf db qids).map (fun q => q.pack_complexity_primary.getD 0)).sum /
         (((rowsOf db qids).filter scoredQuestion).length : Rat))) ∧
    (stop_game (publish_all db chat qids) chat).1.complexity_secondary_avg =
      (if ((rowsOf db qids).filter scoredQuestion).length = 0 then none
       else some (((rowsOf db qids).map (fun q => q.pack_complexity_secondary.getD 0)).sum /
         (((rowsOf db qids).filter scoredQuestion).length : Rat))) := by
  have hbase : (get_or_create_session db.sessions chat).session_asked_count = 0 ∧
      (get_or_create_session db.sessions chat).session_taken_count = 0 ∧
      (get_or_create_session db.sessions chat).session_complexity_count = 0 ∧
      (get_or_create_session db.sessions chat).session_complexity_primary_sum = 0 ∧
      (get_or_create_session db.sessions chat).session_complexity_secondary_sum = 0 := by
    unfold get_or_create_session
    cases hf : db.sessions.find? (fun s => s.chat_id == chat) with
    | none => exact ⟨rfl, rfl, rfl, rfl, rfl⟩
    | some s =>
      have hmem := List.mem_of_find?_eq_some hf
      have hpred := List.find?_some hf
      have hc : s.chat_id = chat := by
        simpa using hpred
      exact hfresh s hmem hc
  obtain ⟨p1, p2, p3, p4, p5, p6, p7⟩ := publish_all_summary chat qids db hnodup hunused
  obtain ⟨s1, s2, s3, s4⟩ := stop_game_stats (publish_all db chat qids) chat
  refine ⟨?_, ?_, ?_, ?_⟩
  · rw [s1, p3, hbase.1]
    omega
  · rw [s2, p4, hbase.2.1]
  · rw [s3, p5, p6, hbase.2.2.1, hbase.2.2.2.1]
    by_cases hl : ((rowsOf db qids).filter scoredQuestion).length = 0
    · simp [hl]
    · simp [hl]
  · rw [s4, p5, p7, hbase.2.2.1, hbase.2.2.2.2]
    by_cases hl : ((rowsOf db qids).filter scoredQuestion).length = 0
    · simp [hl]
    · simp [hl]

/-- Witness for C3 amended: over the two-question fixture pool, stopping
after publishing questions 3 and 4 reports two questions asked. -/
theorem C3_stop_game_amended_witness :
    (stop_game (publish_all exDb2 9 [3, 4]) 9).1.asked = [3, 4].length :=
  (C3_stop_game_amended exDb2 9 [3, 4] (by intro s hs; simp [exDb2] at hs)
    (by decide) (by decide)).1

/-- Witness for C7: publishing question 1 to chat 5 over the fixture pool
increments the session's asked-count from 0 to 1. -/
theorem C7_mark_question_published_witness :
    (get_or_create_session ((mark_question_published exDb 5 1).2).sessions 5).session_asked_count =
      (get_or_create_session exDb.sessions 5).session_asked_count + 1 :=
  (((C7_mark_question_published exDb 5 1).2.2.2) (by decide)).2.1

lemma foldl_preserve {α β : Type} (P : β → Prop) (f : β → α → β)
    (h : ∀ b a, P b → P (f b a)) : ∀ (l : List α) (b : β), P b → P (l.foldl f b) := by
  intro l
  induction l with
  | nil => intro b hb; exact hb
  | cons a rest ih =>
    intro b hb
    exact ih (f b a) (h b a hb)

lemma fetchStep_inl (outcome : FetchAttempt) (m attempt : Nat)
    (result : ReplenishResult)
    (out : Option PackPayload × FetchStatus × ReplenishResult)
    (h : fetchStep outcome m attempt result = .inl out) :
    out.2.2.packs_checked = result.packs_checked ∧
    out.2.2.packs_not_found = result.packs_not_found ∧
    out.2.2.packs_failed_http = result.packs_failed_http ∧
    out.2.2.network_errors = result.network_errors := by
  unfold fetchStep at h
  cases outcome <;> dsimp only at h
  · cases h
    exact ⟨rfl, rfl, rfl, rfl⟩
  · repeat' split at h
    all_goals cases h
    all_goals repeat' split
    all_goals exact ⟨rfl, rfl, rfl, rfl⟩
  · repeat' split at h
    all_goals cases h
    all_goals exact ⟨rfl, rfl, rfl, rfl⟩

lemma fetchStep_inr (outcome : FetchAttempt) (m attempt : Nat)
    (result : ReplenishResult) (rd : ReplenishResult × Rat)
    (h : fetchStep outcome m attempt result = .inr rd) :
    rd.1.packs_checked = result.packs_checked ∧
    rd.1.packs_not_found = result.packs_not_found ∧
    rd.1.packs_failed_http = result.packs_failed_http ∧
    rd.1.network_errors = result.network_errors := by
  unfold fetchStep at h
  cases outcome <;> dsimp only at h
  · cases h
  · repeat' split at h
    all_goals cases h
    all_goals repeat' split
    all_goals exact ⟨rfl, rfl, rfl, rfl⟩
  · repeat' split at h
    all_goals cases h
    all_goals exact ⟨rfl, rfl, rfl, rfl⟩

lemma fetchRetryGo_result (f : Nat → FetchAttempt) (m : Nat) :
    ∀ (fuel attempt : Nat) (result : ReplenishResult) (sleeps : List Rat),
      (fetchRetryGo f m fuel attempt result sleeps).2.2.1.packs_checked =
        result.packs_checked ∧
      (fetchRetryGo f m fuel attempt result sleeps).2.2.1.packs_not_found =
        result.packs_not_found ∧
      (fetchRetryGo f m fuel attempt result sleeps).2.2.1.packs_failed_http =
        result.packs_failed_http ∧
      (fetchRetryGo f m fuel attempt result sleeps).2.2.1.network_errors =
        result.network_errors := by
  intro fuel
  induction fuel with
  | zero =>
    intro attempt result sleeps
    unfold fetchRetryGo
    cases hs : fetchStep (f attempt) m attempt result with
    | inl out => exact fetchStep_inl (f attempt) m attempt result out hs
    | inr rd => exact fetchStep_inr (f attempt) m attempt result rd hs
  | succ fuel ih =>
    intro attempt result sleeps
    unfold fetchRetryGo
    cases hs : fetchStep (f attempt) m attempt result with
    | inl out => exact fetchStep_inl (f attempt) m attempt result out hs
    | inr rd =>
      have hp := fetchStep_inr (f attempt) m attempt result rd hs
      have hih := ih (attempt + 1) rd.1 (sleeps ++ [rd.2])
      refine ⟨?_, ?_, ?_, ?_⟩
      · rw [hih.1, hp.1]
      · rw [hih.2.1, hp.2.1]
      · rw [hih.2.2.1, hp.2.2.1]
      · rw [hih.2.2.2, hp.2.2.2]

lemma upsert_pack_cursor (db : GameDb) (pack : PackPayload) :
    (upsert_pack db pack).parser_cursor = db.parser_cursor := by
  unfold upsert_pack
  cases db.packs.find? (fun p => p.pack_id == pack.id) <;> rfl

lemma upsert_question_preserves (db : GameDb) (pack : PackPayload) (q : QPayload)
    (ready : Int → Nat) (result : ReplenishResult) :
    (upsert_question db pack q ready result).2.1.parser_cursor = db.parser_cursor ∧
    (upsert_question db pack q ready result).2.2.2.packs_checked =
      result.packs_checked := by
  unfold upsert_question
  cases db.questions.find? (fun row => row.question_id == q.id) with
  | some existing => exact ⟨rfl, rfl⟩
  | none =>
    dsimp only
    split
    · exact ⟨rfl, rfl⟩
    · split <;> exact ⟨rfl, rfl⟩

lemma processPack_preserves (db : GameDb) (ready : Int → Nat)
    (result : ReplenishResult) (pack : PackPayload) :
    (processPack db ready result pack).1.parser_cursor = db.parser_cursor ∧
    (processPack db ready result pack).2.2.packs_checked = result.packs_checked := by
  unfold processPack
  have hstep : ∀ (acc : GameDb × (Int → Nat) × ReplenishResult) (q : QPayload),
      (acc.1.parser_cursor = db.parser_cursor ∧
        acc.2.2.packs_checked = result.packs_checked) →
      (let result1 := { acc.2.2 with
          questions_seen_total := acc.2.2.questions_seen_total + 1 }
       let out := upsert_question acc.1 pack q acc.2.1 result1
       let result2 := if out.1 then
          { out.2.2.2 with added_questions := out.2.2.2.added_questions + 1 }
         else out.2.2.2
       ((out.2.1, out.2.2.1, result2) : GameDb × (Int → Nat) × ReplenishResult)).1.parser_cursor =
          db.parser_cursor ∧
      (let result1 := { acc.2.2 with
          questions_seen_total := acc.2.2.questions_seen_total + 1 }
       let out := upsert_question acc.1 pack q acc.2.1 result1
       let result2 := if out.1 then
          { out.2.2.2 with added_questions := out.2.2.2.added_questions + 1 }
         else out.2.2.2
       ((out.2.1, out.2.2.1, result2) : GameDb × (Int → Nat) × ReplenishResult)).2.2.packs_checked =
          result.packs_checked := by
    intro acc q hacc
    have h1 := upsert_question_preserves acc.1 pack q acc.2.1
      { acc.2.2 with questions_seen_total := acc.2.2.questions_seen_total + 1 }
    dsimp only
    constructor
    · rw [h1.1, hacc.1]
    · split <;> exact h1.2.trans hacc.2
  have hout : ∀ (tours : List (List QPayload)) (acc : GameDb × (Int → Nat) × ReplenishResult),
      (acc.1.parser_cursor = db.parser_cursor ∧
        acc.2.2.packs_checked = result.packs_checked) →
      ((tours.foldl (fun acc tour => tour.foldl (fun acc q =>
          let result1 := { acc.2.2 with
            questions_seen_total := acc.2.2.questions_seen_total + 1 }
          let out := upsert_question acc.1 pack q acc.2.1 result1
          let result2 := if out.1 then
            { out.2.2.2 with added_questions := out.2.2.2.added_questions + 1 }
           else out.2.2.2
          (out.2.1, out.2.2.1, result2)) acc) acc).1.parser_cursor = db.parser_cursor ∧
       (tours.foldl (fun acc tour => tour.foldl (fun acc q =>
          let result1 := { acc.2.2 with
            questions_seen_total := acc.2.2.questions_seen_total + 1 }
          let out := upsert_question acc.1 pack q acc.2.1 result1
          let result2 := if out.1 then
            { out.2.2.2 with added_questions := out.2.2.2.added_questions + 1 }
           else out.2.2.2
          (out.2.1, out.2.2.1, result2)) acc) acc).2.2.packs_checked =
          result.packs_checked) := by
    intro tours
    apply foldl_preserve
    intro acc tour hacc
    exact foldl_preserve _ _ hstep tour acc hacc
  exact hout pack.tours _ ⟨upsert_pack_cursor db pack, rfl⟩

lemma processPackId_summary (fetch : Int → Nat → FetchAttempt) (db : GameDb)
    (ready : Int → Nat) (result : ReplenishResult) (pid : Int) :
    (processPackId fetch db ready result pid).1.parser_cursor = db.parser_cursor ∧
    (processPackId fetch db ready result pid).2.2.packs_checked =
      result.packs_checked + 1 := by
  unfold processPackId
  dsimp only
  have hfr := fetchRetryGo_result (fetch pid) 2 2 0
    { result with packs_checked := result.packs_checked + 1 } []
  cases hst : (fetch_pack_with_retry (fetch pid)
      { result with packs_checked := result.packs_checked + 1 } 2).2.1 with
  | not_found => exact ⟨rfl, hfr.1⟩
  | http status => exact ⟨rfl, hfr.1⟩
  | network_error => exact ⟨rfl, hfr.1⟩
  | ok =>
    cases hp : (fetch_pack_with_retry (fetch pid)
        { result with packs_checked := result.packs_checked + 1 } 2).1 with
    | none => exact ⟨rfl, hfr.1⟩
    | some pack =>
      have hpp := processPack_preserves db ready
        { (fetch_pack_with_retry (fetch pid)
            { result with packs_checked := result.packs_checked + 1 } 2).2.2.1 with
          packs_found := (fetch_pack_with_retry (fetch pid)
            { result with packs_checked := result.packs_checked + 1 } 2).2.2.1.packs_found + 1 }
        pack
      exact ⟨hpp.1, hpp.2.trans hfr.1⟩

lemma fold_processPackId (fetch : Int → Nat → FetchAttempt) :
    ∀ (pids : List Int) (db : GameDb) (ready : Int → Nat) (result : ReplenishResult),
      (pids.foldl (fun acc pid => processPackId fetch acc.1 acc.2.1 acc.2.2 pid)
        (db, ready, result)).1.parser_cursor = db.parser_cursor ∧
      (pids.foldl (fun acc pid => processPackId fetch acc.1 acc.2.1 acc.2.2 pid)
        (db, ready, result)).2.2.packs_checked =
        result.packs_checked + pids.length := by
  intro pids
  induction pids with
  | nil => intro db ready result; exact ⟨rfl, rfl⟩
  | cons pid rest ih =>
    intro db ready result
    have h1 := processPackId_summary fetch db ready result pid
    have h2 := ih (processPackId fetch db ready result pid).1
      (processPackId fetch db ready result pid).2.1
      (processPackId fetch db ready result pid).2.2
    simp only [List.foldl_cons]
    constructor
    · rw [h2.1, h1.1]
    · rw [h2.2, h1.2, List.length_cons]
      omega

lemma map_congr_fn {α β : Type} (f g : α → β) :
    ∀ (l : List α), (∀ a ∈ l, f a = g a) → l.map f = l.map g := by
  intro l
  induction l with
  | nil => intro _; rfl
  | cons a rest ih =>
    intro hfg
    simp only [List.map_cons]
    rw [hfg a (List.mem_cons_self _ _), ih (fun x hx => hfg x (List.mem_cons_of_mem _ hx))]

lemma replenishBatchLoop_stop (fetch : Int → Nat → FetchAttempt) (bs : Int)
    (fuel : Nat) (current : Int) (db : GameDb) (ready : Int → Nat)
    (result : ReplenishResult) (done : Nat) (commits : List Int)
    (h : current ≤ 0) :
    replenishBatchLoop fetch bs fuel current db ready result done commits =
      ⟨db, ready, result, current, done, commits⟩ := by
  cases fuel with
  | zero => rfl
  | succ fuel =>
    unfold replenishBatchLoop
    rw [if_pos h]

lemma descRange_length (a b : Int) :
    (descRange a b).length = (a - b + 1).toNat := by
  unfold descRange
  rw [List.length_map, List.length_range]

lemma loop_summary (fetch : Int → Nat → FetchAttempt) (bs : Int) (hbs : 1 ≤ bs) :
    ∀ (fuel : Nat) (current : Int) (db : GameDb) (ready : Int → Nat)
      (result : ReplenishResult) (done : Nat) (commits : List Int),
      0 < current →
      ∃ k : Nat,
        (replenishBatchLoop fetch bs fuel current db ready result done commits).batches_done =
          done + k ∧
        k ≤ fuel ∧
        (0 < fuel → 0 < k) ∧
        (replenishBatchLoop fetch bs fuel current db ready result done commits).current =
          max (current - bs * k) 0 ∧
        (replenishBatchLoop fetch bs fuel current db ready result done commits).result.packs_checked =
          result.packs_checked +
            (current -
              (replenishBatchLoop fetch bs fuel current db ready result done commits).current).toNat ∧
        (replenishBatchLoop fetch bs fuel current db ready result done commits).db.parser_cursor =
          (if k = 0 then db.parser_cursor
           else some ((replenishBatchLoop fetch bs fuel current db ready result done commits).current)) ∧
        (replenishBatchLoop fetch bs fuel current db ready result done commits).commits =
          commits ++ (List.range k).map (fun j : Nat => max (current - bs * ((j : Int) + 1)) 0) ∧
        (∀ j : Nat, j < k → 0 < current - bs * (j : Int)) ∧
        (k < fuel →
          (replenishBatchLoop fetch bs fuel current db ready result done commits).current ≤ 0) := by
  intro fuel
  induction fuel with
  | zero =>
    intro current db ready result done commits h
    refine ⟨0, rfl, Nat.le_refl 0, by omega, ?_, ?_, rfl, by simp [replenishBatchLoop],
      by omega, by omega⟩
    · show current = max (current - bs * ((0 : Nat) : Int)) 0
      push_cast
      omega
    · show result.packs_checked = result.packs_checked + (current - current).toNat
      omega
  | succ fuel ih =>
    intro current db ready result done commits h
    rw [show replenishBatchLoop fetch bs (fuel + 1) current db ready result done commits =
      (if current ≤ 0 then
        (⟨db, ready, result, current, done, commits⟩ : LoopOut)
       else
        let batch_start := current
        let batch_end := max (current - bs + 1) 1
        let result' :=
          { result with
            batch_start_pack_id :=
              if result.batch_start_pack_id = none then some batch_start
              else result.batch_start_pack_id,
            batch_end_pack_id := some batch_end }
        let folded := (descRange batch_start batch_end).foldl
          (fun acc pid => processPackId fetch acc.1 acc.2.1 acc.2.2 pid)
          (db, ready, result')
        let current' := batch_end - 1
        let db' := { folded.1 with parser_cursor := some current' }
        replenishBatchLoop fetch bs fuel current' db' folded.2.1 folded.2.2
          (done + 1) (commits ++ [current'])) from rfl]
    rw [if_neg (by omega)]
    dsimp only
    have hfold := fold_processPackId fetch
      (descRange current (max (current - bs + 1) 1)) db ready
      { result with
        batch_start_pack_id :=
          if result.batch_start_pack_id = none then some current
          else result.batch_start_pack_id,
        batch_end_pack_id := some (max (current - bs + 1) 1) }
    set be := max (current - bs + 1) 1 with hbe
    set folded := (descRange current be).foldl
      (fun acc pid => processPackId fetch acc.1 acc.2.1 acc.2.2 pid)
      (db, ready,
        { result with
          batch_start_pack_id :=
            if result.batch_start_pack_id = none then some current
            else result.batch_start_pack_id,
          batch_end_pack_id := some be }) with hfolded
    have hfoldpc : folded.2.2.packs_checked =
        result.packs_checked + (current - (be - 1)).toNat := by
      rw [hfold.2, descRange_length]
      have : (current - be + 1).toNat = (current - (be - 1)).toNat := by omega
      rw [this]
    by_cases hcur : be - 1 ≤ 0
    · rw [replenishBatchLoop_stop fetch bs fuel (be - 1) _ _ _ _ _ hcur]
      refine ⟨1, rfl, by omega, by omega, ?_, ?_, rfl, ?_, ?_, ?_⟩
      · show be - 1 = max (current - bs * ((1 : Nat) : Int)) 0
        push_cast
        omega
      · exact hfoldpc
      · show commits ++ [be - 1] =
          commits ++ (List.range 1).map (fun j : Nat => max (current - bs * ((j : Int) + 1)) 0)
        rw [List.range_succ, List.range_zero, List.nil_append, List.map_cons, List.map_nil]
        congr 2
        push_cast
        omega
      · intro j hj
        have : j = 0 := by omega
        subst this
        push_cast
        omega
      · intro _
        exact hcur
    · have hcur' : 0 < be - 1 := by omega
      have hbnd : be - 1 = current - bs := by omega
      obtain ⟨k', i1, i2, i3, i4, i5, i6, i7, i8, i9⟩ :=
        ih (be - 1) { folded.1 with parser_cursor := some (be - 1) } folded.2.1
          folded.2.2 (done + 1) (commits ++ [be - 1]) hcur'
      have hmul : (0 : Int) ≤ bs * (k' : Int) :=
        mul_nonneg (by omega) (by positivity)
      refine ⟨k' + 1, by rw [i1]; omega, by omega, by omega, ?_, ?_, ?_, ?_, ?_, ?_⟩
      · rw [i4]
        have hc : (((k' + 1 : Nat) : Int)) = (k' : Int) + 1 := by push_cast; ring
        rw [hc]
        have hd : bs * ((k' : Int) + 1) = bs * (k' : Int) + bs := by ring
        rw [hd]
        have hm2 := hmul
        generalize bs * (k' : Int) = M at hm2 ⊢
        omega
      · have hle := i4
        have hm2 := hmul
        generalize hM : bs * (k' : Int) = M at hle hm2
        rw [i5, hfoldpc, hle]
        have h3 : be - 1 ≤ current := by omega
        omega
      · rw [i6]
        by_cases hk : k' = 0
        · rw [if_pos hk, if_neg (Nat.succ_ne_zero k')]
          have h0 : (replenishBatchLoop fetch bs fuel (be - 1)
              { folded.1 with parser_cursor := some (be - 1) } folded.2.1 folded.2.2
              (done + 1) (commits ++ [be - 1])).current = be - 1 := by
            rw [i4, hk]
            push_cast
            omega
          rw [h0]
        · rw [if_neg hk, if_neg (Nat.succ_ne_zero k')]
      · rw [i7, List.range_succ_eq_map, List.map_cons, List.map_map,
          List.append_assoc, List.singleton_append]
        congr 1
        congr 1
        · push_cast
          omega
        · apply map_congr_fn
          intro j hj
          show max ((be - 1) - bs * ((j : Int) + 1)) 0 =
            max (current - bs * (((j + 1 : Nat) : Int) + 1)) 0
          have harg : (be - 1) - bs * ((j : Int) + 1) =
              current - bs * (((j + 1 : Nat) : Int) + 1) := by
            rw [hbnd]
            push_cast
            ring
          rw [harg]
      · intro j hj
        cases j with
        | zero =>
          push_cast
          omega
        | succ j =>
          have hpos := i8 j (by omega)
          have hd : bs * (((j + 1 : Nat) : Int)) = bs * (j : Int) + bs := by
            push_cast
            ring
          rw [hd]
          generalize hM : bs * (j : Int) = M at hpos ⊢
          omega
      · intro hk
        exact i9 (by omega)

lemma chain'_desc (k : Nat) :
    ∀ (c : Int) (f : Nat → Int),
      (0 < k → f 0 < c) →
      (∀ j, j + 1 < k → f (j + 1) < f j) →
      List.Chain' (fun a b => b < a) (c :: (List.range k).map f) := by
  induction k with
  | zero =>
    intro c f _ _
    simp
  | succ k ih =>
    intro c f h0 hstep
    rw [List.range_succ_eq_map, List.map_cons, List.map_map, List.chain'_cons]
    refine ⟨h0 (Nat.succ_pos k), ?_⟩
    exact ih (f 0) (f ∘ Nat.succ)
      (fun hk => hstep 0 (by omega))
      (fun j hj => hstep (j + 1) (by omega))

lemma get_or_create_state_cursor (db : GameDb) (start : Int) :
    (get_or_create_state db start).2.parser_cursor =
      some (get_or_create_state db start).1 := by
  unfold get_or_create_state
  cases h : db.parser_cursor with
  | none => rfl
  | some c => exact h

/-- C4: a `replenish_cursor_batches` run starting from persisted cursor
`C0 > 0` only ever moves the cursor downward: every committed cursor
value is strictly below the previous one, and the final cursor equals
`C0` minus the number of pack ids actually attempted (`packs_checked`,
the sum of the widths of the attempted batches), which also equals
`C0 - batch_size * batches`, clipped at 0 (the final batch is clipped at
external pack id 1).  From `C0 ≤ 0` the call returns immediately without
attempting any batch. -/
theorem C4_cursor_monotone (fetch : Int → Nat → FetchAttempt) (db : GameDb)
    (target_per_level : Nat) (batch_size : Int) (max_batches : Nat) (start : Int)
    (hbs : 1 ≤ batch_size) :
    (0 < (get_or_create_state db start).1 →
      ∃ v : Int,
        (replenish_cursor_batches fetch db target_per_level batch_size max_batches
          start).1.cursor_after = some v ∧
        v = (get_or_create_state db start).1 -
          ((replenish_cursor_batches fetch db target_per_level batch_size max_batches
            start).1.packs_checked : Int) ∧
        v ≤ (get_or_create_state db start).1 ∧ 0 ≤ v ∧
        v = max ((get_or_create_state db start).1 -
          batch_size * ((replenish_cursor_batches fetch db target_per_level batch_size
            max_batches start).1.pages_scanned : Int)) 0 ∧
        List.Chain' (fun a b => b < a)
          ((get_or_create_state db start).1 ::
            (replenish_cursor_batches fetch db target_per_level batch_size max_batches
              start).2.2)) ∧
    ((get_or_create_state db start).1 ≤ 0 →
      (replenish_cursor_batches fetch db target_per_level batch_size max_batches
        start).1.packs_checked = 0 ∧
      (replenish_cursor_batches fetch db target_per_level batch_size max_batches
        start).1.pages_scanned = 0 ∧
      (replenish_cursor_batches fetch db target_per_level batch_size max_batches
        start).1.cursor_after = some (get_or_create_state db start).1 ∧
      (replenish_cursor_batches fetch db target_per_level batch_size max_batches
        start).2.2 = []) := by
  constructor
  · intro hC0
    unfold replenish_cursor_batches
    dsimp only
    rw [if_neg (by omega)]
    obtain ⟨k, l1, l2, l3, l4, l5, l6, l7, l8, l9⟩ :=
      loop_summary fetch batch_size hbs max_batches (get_or_create_state db start).1
        (get_or_create_state db start).2 (count_ready_by_category db)
        { ready_count := readySum (count_ready_by_category db),
          cursor_before := some (get_or_create_state db start).1,
          cursor_after := some (get_or_create_state db start).1 } 0 [] hC0
    have hmul : (0 : Int) ≤ batch_size * (k : Int) :=
      mul_nonneg (by omega) (by positivity)
    refine ⟨(replenishBatchLoop fetch batch_size max_batches
        (get_or_create_state db start).1 (get_or_create_state db start).2
        (count_ready_by_category db)
        { ready_count := readySum (count_ready_by_category db),
          cursor_before := some (get_or_create_state db start).1,
          cursor_after := some (get_or_create_state db start).1 } 0 []).current,
      ?_, ?_, ?_, ?_, ?_, ?_⟩
    · show (replenishBatchLoop fetch batch_size max_batches
          (get_or_create_state db start).1 (get_or_create_state db start).2
          (count_ready_by_category db)
          { ready_count := readySum (count_ready_by_category db),
            cursor_before := some (get_or_create_state db start).1,
            cursor_after := some (get_or_create_state db start).1 } 0 []).db.parser_cursor =
        some _
      rw [l6]
      by_cases hk : k = 0
      · rw [if_pos hk]
        rw [get_or_create_state_cursor]
        congr 1
        rw [l4, hk]
        push_cast
        omega
      · rw [if_neg hk]
    · show ((replenishBatchLoop fetch batch_size max_batches
          (get_or_create_state db start).1 (get_or_create_state db start).2
          (count_ready_by_category db)
          { ready_count := readySum (count_ready_by_category db),
            cursor_before := some (get_or_create_state db start).1,
            cursor_after := some (get_or_create_state db start).1 } 0 []).current : Int) =
        (get_or_create_state db start).1 -
          ((replenishBatchLoop fetch batch_size max_batches
            (get_or_create_state db start).1 (get_or_create_state db start).2
            (count_ready_by_category db)
            { ready_count := readySum (count_ready_by_category db),
              cursor_before := some (get_or_create_state db start).1,
              cursor_after := some (get_or_create_state db start).1 } 0 []).result.packs_checked : Int)
      have hle := l4
      generalize hM : batch_size * (k : Int) = M at hle hmul
      rw [l5]
      have hz : ReplenishResult.packs_checked
          { ready_count := readySum (count_ready_by_category db),
            cursor_before := some (get_or_create_state db start).1,
            cursor_after := some (get_or_create_state db start).1 } = 0 := rfl
      rw [hz]
      omega
    · have hle := l4
      generalize hM : batch_size * (k : Int) = M at hle hmul
      rw [hle]
      omega
    · have hle := l4
      generalize hM : batch_size * (k : Int) = M at hle hmul
      rw [hle]
      omega
    · rw [l1, l4]
      norm_num
    · rw [l7]
      simp only [List.nil_append]
      apply chain'_desc
      · intro hk
        have := l8 0 hk
        push_cast at this ⊢
        omega
      · intro j hj
        have hpos := l8 (j + 1) (by omega)
        push_cast at hpos
        have e2 : batch_size * ((j : Int) + 1 + 1) = batch_size * ((j : Int) + 1) + batch_size := by
          ring
        show max ((get_or_create_state db start).1 -
            batch_size * (((j + 1 : Nat) : Int) + 1)) 0 <
          max ((get_or_create_state db start).1 - batch_size * ((j : Int) + 1)) 0
        push_cast
        rw [e2]
        generalize batch_size * ((j : Int) + 1) = M at hpos ⊢
        omega
  · intro hC0
    unfold replenish_cursor_batches
    dsimp only
    rw [if_pos hC0]
    refine ⟨rfl, rfl, rfl, rfl⟩

lemma difficulty_bucket_intCast (k : Int) (h1 : 1 ≤ k) (h2 : k ≤ 10) :
    difficulty_bucket (some (k : Rat)) none = some k := by
  have hf : ⌊(k : Rat)⌋ = k := Int.floor_intCast k
  have hr : pythonRound (k : Rat) = k := by
    unfold pythonRound
    rw [hf]
    norm_num
  unfold difficulty_bucket
  have hs : difficulty_score (some (k : Rat)) none = some (k : Rat) := rfl
  rw [hs]
  dsimp only
  rw [hr, if_neg (by omega), if_neg (by omega)]

lemma get_or_create_state_questions (db : GameDb) (start : Int) :
    (get_or_create_state db start).2.questions = db.questions := by
  unfold get_or_create_state
  cases db.parser_cursor <;> rfl

/-- Counterexample for C2.  In `exDb5` every difficulty bucket 1–10
already holds one ready question, so with `target_per_level = 1` every
bucket meets the target; the claim then promises a zero-effort run with
no pack fetched and the cursor unchanged.  The code never consults
`target_per_level`: the run checks 5 packs and moves the persisted
cursor from 5 to 0. -/
theorem C2_counterexample_full_buckets :
    (∀ level : Int, 1 ≤ level → level ≤ 10 →
      1 ≤ count_ready_by_category exDb5 level) ∧
    (get_or_create_state exDb5 6300).1 = 5 ∧
    (replenish_cursor_batches all404 exDb5 1 5 1 6300).1.cursor_before = some 5 ∧
    (replenish_cursor_batches all404 exDb5 1 5 1 6300).1.packs_checked = 5 ∧
    (replenish_cursor_batches all404 exDb5 1 5 1 6300).1.cursor_after = some 0 := by
  refine ⟨?_, rfl, ?_, ?_, ?_⟩
  · intro level h1 h2
    have e : difficulty_bucket (exReadyQ level).pack_complexity_primary
        (exReadyQ level).pack_complexity_secondary = some level := by
      show difficulty_bucket (some (level : Rat)) none = some level
      exact difficulty_bucket_intCast level h1 h2
    have hmem : exReadyQ level ∈ exDb5.questions := by
      interval_cases level <;> decide
    have hpred : (difficulty_bucket (exReadyQ level).pack_complexity_primary
        (exReadyQ level).pack_complexity_secondary == some level) = true := by
      rw [e]
      simp
    have hfil : exReadyQ level ∈ exDb5.questions.filter (fun q =>
        difficulty_bucket q.pack_complexity_primary q.pack_complexity_secondary ==
          some level) :=
      List.mem_filter.mpr ⟨hmem, hpred⟩
    exact List.length_pos_of_mem hfil
  · rfl
  · decide
  · decide

/-- C2 amended: `replenish_cursor_batches` ignores `target_per_level`
entirely (its result does not depend on it); the only zero-effort early
return is the exhausted-cursor one (`cursor ≤ 0`), and with a positive
cursor, a positive batch size and at least one allowed batch the run
always fetches at least one pack — bucket fullness never short-circuits
it. -/
theorem C2_amended_no_target_short_circuit (fetch : Int → Nat → FetchAttempt)
    (db : GameDb) (batch_size : Int) (max_batches : Nat) (start : Int) :
    (∀ t1 t2 : Nat,
      replenish_cursor_batches fetch db t1 batch_size max_batches start =
        replenish_cursor_batches fetch db t2 batch_size max_batches start) ∧
    ((get_or_create_state db start).1 ≤ 0 → ∀ t : Nat,
      (replenish_cursor_batches fetch db t batch_size max_batches start).1.packs_checked = 0 ∧
      (replenish_cursor_batches fetch db t batch_size max_batches start).1.added_questions = 0 ∧
      (replenish_cursor_batches fetch db t batch_size max_batches start).1.pages_scanned = 0 ∧
      (replenish_cursor_batches fetch db t batch_size max_batches start).1.cursor_after =
        some (get_or_create_state db start).1 ∧
      (replenish_cursor_batches fetch db t batch_size max_batches start).2.1.questions =
        db.questions ∧
      (replenish_cursor_batches fetch db t batch_size max_batches start).2.2 = []) ∧
    (1 ≤ batch_size → 1 ≤ max_batches → 0 < (get_or_create_state db start).1 →
      ∀ t : Nat,
        1 ≤ (replenish_cursor_batches fetch db t batch_size max_batches
          start).1.packs_checked) := by
  refine ⟨fun t1 t2 => rfl, ?_, ?_⟩
  · intro hC0 t
    unfold replenish_cursor_batches
    dsimp only
    rw [if_pos hC0]
    exact ⟨rfl, rfl, rfl, rfl, get_or_create_state_questions db start, rfl⟩
  · intro hbs hmb hC0 t
    unfold replenish_cursor_batches
    dsimp only
    rw [if_neg (by omega)]
    obtain ⟨k, l1, l2, l3, l4, l5, l6, l7, l8, l9⟩ :=
      loop_summary fetch batch_size hbs max_batches (get_or_create_state db start).1
        (get_or_create_state db start).2 (count_ready_by_category db)
        { ready_count := readySum (count_ready_by_category db),
          cursor_before := some (get_or_create_state db start).1,
          cursor_after := some (get_or_create_state db start).1 } 0 [] hC0
    have hk1 : 1 ≤ k := l3 (by omega)
    have hmul : (1 : Int) * 1 ≤ batch_size * (k : Int) :=
      mul_le_mul hbs (by exact_mod_cast hk1) (by norm_num) (by omega)
    have hle := l4
    generalize hM : batch_size * (k : Int) = M at hle hmul
    rw [l5]
    have hz : ReplenishResult.packs_checked
        { ready_count := readySum (count_ready_by_category db),
          cursor_before := some (get_or_create_state db start).1,
          cursor_after := some (get_or_create_state db start).1 } = 0 := rfl
    rw [hz]
    omega

/-- Witness for C2 amended: over the full-bucket fixture, a run with
cursor 5, batch size 5 and one allowed batch still checks at least one
pack. -/
theorem C2_amended_witness :
    1 ≤ (replenish_cursor_batches all404 exDb5 1 5 1 6300).1.packs_checked :=
  (C2_amended_no_target_short_circuit all404 exDb5 5 1 6300).2.2
    (by decide) (by decide) (by decide) 1

/-- Witness for C4: a run whose persisted cursor is already 0 attempts
nothing and leaves the cursor at 0. -/
theorem C4_cursor_monotone_witness :
    (replenish_cursor_batches all404 exDb0 1 5 1 6300).1.packs_checked = 0 ∧
    (replenish_cursor_batches all404 exDb0 1 5 1 6300).1.pages_scanned = 0 ∧
    (replenish_cursor_batches all404 exDb0 1 5 1 6300).1.cursor_after =
      some (get_or_create_state exDb0 6300).1 ∧
    (replenish_cursor_batches all404 exDb0 1 5 1 6300).2.2 = [] :=
  (C4_cursor_monotone all404 exDb0 1 5 1 6300 (by decide)).2 (by decide)

/-- C8: per-pack fetch classification — a 404 is terminal (`not_found`,
no retry); persistent 403/429 sets the blocked flag yet is retried up to
the limit of 2 with linear backoff sleeps `[0.25, 0.5]`; any other 4xx is
terminal without retry; persistent 5xx and network errors are retried up
to the same limit (5xx ends as an `http` status, network errors as
`network_error`, and the batch loop counts either in `network_errors`);
and no per-pack failure aborts the run: the packs checked, batches done,
committed cursors and final cursor of a replenish run do not depend on
the fetch outcomes at all. -/
theorem C8_fetch_retry_classification :
    (∀ (f : Nat → FetchAttempt) (r : ReplenishResult),
      f 0 = FetchAttempt.httpError (some 404) →
      fetch_pack_with_retry f r 2 = (none, FetchStatus.not_found, r, [])) ∧
    (∀ (f : Nat → FetchAttempt) (r : ReplenishResult) (s : Nat),
      s = 403 ∨ s = 429 → (∀ i, f i = FetchAttempt.httpError (some s)) →
      (fetch_pack_with_retry f r 2).2.1 = FetchStatus.http (some s) ∧
      (fetch_pack_with_retry f r 2).2.2.1.blocked = true ∧
      (fetch_pack_with_retry f r 2).2.2.1.network_retries = r.network_retries + 2 ∧
      (fetch_pack_with_retry f r 2).2.2.2 = [1/4, 1/2]) ∧
    (∀ (f : Nat → FetchAttempt) (r : ReplenishResult) (s : Nat),
      400 ≤ s → s < 500 → s ≠ 403 → s ≠ 404 → s ≠ 429 →
      f 0 = FetchAttempt.httpError (some s) →
      fetch_pack_with_retry f r 2 = (none, FetchStatus.http (some s), r, [])) ∧
    (∀ (f : Nat → FetchAttempt) (r : ReplenishResult) (s : Nat),
      500 ≤ s → (∀ i, f i = FetchAttempt.httpError (some s)) →
      (fetch_pack_with_retry f r 2).2.1 = FetchStatus.http (some s) ∧
      (fetch_pack_with_retry f r 2).2.2.1.network_retries = r.network_retries + 2 ∧
      (fetch_pack_with_retry f r 2).2.2.2 = [1/4, 1/2]) ∧
    (∀ (f : Nat → FetchAttempt) (r : ReplenishResult),
      (∀ i, f i = FetchAttempt.netError) →
      (fetch_pack_with_retry f r 2).2.1 = FetchStatus.network_error ∧
      (fetch_pack_with_retry f r 2).2.2.1.network_retries = r.network_retries + 2 ∧
      (fetch_pack_with_retry f r 2).2.2.2 = [1/4, 1/2]) ∧
    (∀ (fetch : Int → Nat → FetchAttempt) (db : GameDb) (ready : Int → Nat)
      (r : ReplenishResult) (pid : Int),
      ((∃ s, (fetch_pack_with_retry (fetch pid)
          { r with packs_checked := r.packs_checked + 1 } 2).2.1 = FetchStatus.http s) ∨
       (fetch_pack_with_retry (fetch pid)
          { r with packs_checked := r.packs_checked + 1 } 2).2.1 = FetchStatus.network_error) →
      (processPackId fetch db ready r pid).2.2.network_errors =
        (fetch_pack_with_retry (fetch pid)
          { r with packs_checked := r.packs_checked + 1 } 2).2.2.1.network_errors + 1) ∧
    (∀ (f1 f2 : Int → Nat → FetchAttempt) (db : GameDb) (t1 t2 : Nat) (bs : Int)
      (mb : Nat) (start : Int), 1 ≤ bs →
      (replenish_cursor_batches f1 db t1 bs mb start).1.packs_checked =
        (replenish_cursor_batches f2 db t2 bs mb start).1.packs_checked ∧
      (replenish_cursor_batches f1 db t1 bs mb start).1.pages_scanned =
        (replenish_cursor_batches f2 db t2 bs mb start).1.pages_scanned ∧
      (replenish_cursor_batches f1 db t1 bs mb start).1.cursor_after =
        (replenish_cursor_batches f2 db t2 bs mb start).1.cursor_after ∧
      (replenish_cursor_batches f1 db t1 bs mb start).2.2 =
        (replenish_cursor_batches f2 db t2 bs mb start).2.2) := by
  refine ⟨?_, ?_, ?_, ?_, ?_, ?_, ?_⟩
  · intro f r h
    simp [fetch_pack_with_retry, fetchRetryGo, fetchStep, h]
  · intro f r s hs hf
    have h0 := hf 0
    have h1 := hf 1
    have h2 := hf 2
    rcases hs with rfl | rfl <;>
      refine ⟨?_, ?_, ?_, ?_⟩ <;>
      ·  norm_num [fetch_pack_with_retry, fetchRetryGo, fetchStep, h0, h1, h2]
  · intro f r s hge hlt h403 h404 h429 h
    have hd : (decide (s < 500)) = true := decide_eq_true hlt
    simp [fetch_pack_with_retry, fetchRetryGo, fetchStep, h, h403, h404, h429, hd, hlt]
  · intro f r s hge hf
    have h0 := hf 0
    have h1 := hf 1
    have h2 := hf 2
    have h403 : s ≠ 403 := by omega
    have h404 : s ≠ 404 := by omega
    have h429 : s ≠ 429 := by omega
    have hnlt : ¬(s < 500) := by omega
    refine ⟨?_, ?_, ?_⟩ <;>
      norm_num [fetch_pack_with_retry, fetchRetryGo, fetchStep, h0, h1, h2, h403,
        h404, h429, hnlt]
  · intro f r hf
    have h0 := hf 0
    have h1 := hf 1
    have h2 := hf 2
    refine ⟨?_, ?_, ?_⟩ <;>
      norm_num [fetch_pack_with_retry, fetchRetryGo, fetchStep, h0, h1, h2]
  · intro fetch db ready r pid hcase
    unfold processPackId
    dsimp only
    rcases hcase with ⟨s, hs⟩ | hs <;> rw [hs]
  · intro f1 f2 db t1 t2 bs mb start hbs
    by_cases hC0 : (get_or_create_state db start).1 ≤ 0
    · unfold replenish_cursor_batches
      dsimp only
      rw [if_pos hC0, if_pos hC0]
      exact ⟨rfl, rfl, rfl, rfl⟩
    · have hC0' : 0 < (get_or_create_state db start).1 := by omega
      unfold replenish_cursor_batches
      dsimp only
      rw [if_neg (by omega), if_neg (by omega)]
      obtain ⟨k1, a1, a2, a3, a4, a5, a6, a7, a8, a9⟩ :=
        loop_summary f1 bs hbs mb (get_or_create_state db start).1
          (get_or_create_state db start).2 (count_ready_by_category db)
          { ready_count := readySum (count_ready_by_category db),
            cursor_before := some (get_or_create_state db start).1,
            cursor_after := some (get_or_create_state db start).1 } 0 [] hC0'
      obtain ⟨k2, b1, b2, b3, b4, b5, b6, b7, b8, b9⟩ :=
        loop_summary f2 bs hbs mb (get_or_create_state db start).1
          (get_or_create_state db start).2 (count_ready_by_category db)
          { ready_count := readySum (count_ready_by_category db),
            cursor_before := some (get_or_create_state db start).1,
            cursor_after := some (get_or_create_state db start).1 } 0 [] hC0'
      have hkk : k1 = k2 := by
        by_contra hne
        rcases Nat.lt_or_ge k1 k2 with hlt | hge
        · have hpos := b8 k1 hlt
          have hstop := a9 (by omega)
          rw [a4] at hstop
          generalize bs * (k1 : Int) = M at hstop hpos
          omega
        · have hlt2 : k2 < k1 := by omega
          have hpos := a8 k2 hlt2
          have hstop := b9 (by omega)
          rw [b4] at hstop
          generalize bs * (k2 : Int) = M at hstop hpos
          omega
      have hcur : (replenishBatchLoop f1 bs mb (get_or_create_state db start).1
          (get_or_create_state db start).2 (count_ready_by_category db)
          { ready_count := readySum (count_ready_by_category db),
            cursor_before := some (get_or_create_state db start).1,
            cursor_after := some (get_or_create_state db start).1 } 0 []).current =
          (replenishBatchLoop f2 bs mb (get_or_create_state db start).1
          (get_or_create_state db start).2 (count_ready_by_category db)
          { ready_count := readySum (count_ready_by_category db),
            cursor_before := some (get_or_create_state db start).1,
            cursor_after := some (get_or_create_state db start).1 } 0 []).current := by
        rw [a4, b4, hkk]
      refine ⟨?_, ?_, ?_, ?_⟩
      · show ReplenishResult.packs_checked _ = ReplenishResult.packs_checked _
        rw [a5, b5, hcur]
      · show (replenishBatchLoop f1 bs mb _ _ _ _ 0 []).batches_done =
          (replenishBatchLoop f2 bs mb _ _ _ _ 0 []).batches_done
        rw [a1, b1, hkk]
      · show (replenishBatchLoop f1 bs mb _ _ _ _ 0 []).db.parser_cursor =
          (replenishBatchLoop f2 bs mb _ _ _ _ 0 []).db.parser_cursor
        rw [a6, b6, hkk, hcur]
      · show (replenishBatchLoop f1 bs mb _ _ _ _ 0 []).commits =
          (replenishBatchLoop f2 bs mb _ _ _ _ 0 []).commits
        rw [a7, b7, hkk]

/-- Witness for C8: a constant-404 source yields `not_found` with no
retry and an untouched result, applied at the empty result record. -/
theorem C8_fetch_retry_classification_witness :
    fetch_pack_with_retry (fun _ => FetchAttempt.httpError (some 404)) {} 2 =
      (none, FetchStatus.not_found, {}, []) :=
  C8_fetch_retry_classification.1 (fun _ => FetchAttempt.httpError (some 404)) {} rfl

/-- C10 (implicit): every selection query requires a non-NULL take rate,
so a stored question without one is never returned by `next_question`
for any chat, filters or random draw; yet the admission filter accepts
any question with `likes >= 1` regardless of take statistics, and
`_upsert_question` then stores a row with `take_percent = None` — such a
row is stored but can never be delivered. -/
theorem C10_absent_take_rate_never_served :
    (∀ (db : GameDb) (chat : Int) (d : Option Int) (ml : Int) (mt : Rat) (r : Nat)
      (q : QuestionRow),
      next_question db chat d ml mt r = some q → q.take_percent.isSome = true) ∧
    question_passes_filter 1 none none none = true ∧
    ((upsert_question exDbEmpty exPack10 exQPay10 (fun _ => 0) {}).1 = true ∧
      (upsert_question exDbEmpty exPack10 exQPay10 (fun _ => 0) {}).2.1.questions =
        [exRow10] ∧
      exRow10.take_percent = none ∧ exRow10.likes = 1) := by
  have hb : difficulty_bucket (some (5 : Rat)) none = some 5 := by
    have h := difficulty_bucket_intCast 5 (by norm_num) (by norm_num)
    norm_num at h
    exact h
  have hup : upsert_question exDbEmpty exPack10 exQPay10 (fun _ => 0) {} =
      (true, { exDbEmpty with questions := exDbEmpty.questions ++ [exRow10] },
        fun l => if l = 5 then (fun _ => (0 : Nat)) l + 1 else (fun _ => (0 : Nat)) l,
        { (({} : ReplenishResult)) with questions_added_by_level := fun l =>
            if l = 5 then ({} : ReplenishResult).questions_added_by_level l + 1
            else ({} : ReplenishResult).questions_added_by_level l }) := by
    unfold upsert_question
    rw [show exDbEmpty.questions.find?
        (fun row => row.question_id == exQPay10.id) = none from rfl]
    dsimp only
    rw [if_neg (by decide)]
    rw [show dlGet exPack10.trueDl 0 = some (5 : Rat) from rfl,
      show dlGet exPack10.trueDl 1 = none from rfl, hb]
    rfl
  refine ⟨?_, rfl, ?_, ?_, rfl, rfl⟩
  · intro db chat d ml mt r q hq
    have hmem := List.get?_mem hq
    have hmatch := (List.mem_filter.mp hmem).2
    unfold questionMatches at hmatch
    simp only [Bool.and_eq_true] at hmatch
    have ht := hmatch.1.2
    cases hp : q.take_percent with
    | none =>
      rw [hp] at ht
      exact absurd ht (by simp)
    | some t => rfl
  · rw [hup]
  · rw [hup]
    rfl

/-- Witness for C10: the never-served statement applied at a concrete
pool where the drawn question does carry a take rate. -/
theorem C10_absent_take_rate_never_served_witness :
    exQ1.take_percent.isSome = true :=
  C10_absent_take_rate_never_served.1 exDb 5 none 1 20 0 exQ1 (by decide)

/-- C1: once `mark_question_published` has recorded question `Q` as
delivered to chat `C`, `next_question` never returns `Q` for chat `C`
under any filter settings (or random draw), while the candidate list of
every other chat `C2` is unchanged — in particular `Q` stays selectable
for `C2`. -/
theorem C1_no_redelivery_per_chat (db : GameDb) (C Q : Int) :
    (∀ (d : Option Int) (ml : Int) (mt : Rat) (r : Nat) (q : QuestionRow),
      next_question (mark_question_published db C Q).2 C d ml mt r = some q →
      q.question_id ≠ Q) ∧
    (∀ C2 : Int, C2 ≠ C → ∀ (d : Option Int) (ml : Int) (mt : Rat),
      build_questions_query (mark_question_published db C Q).2 C2 d ml mt =
        build_questions_query db C2 d ml mt) := by
  constructor
  · intro d ml mt r q hq hQ
    have hmem : q ∈ build_questions_query (mark_question_published db C Q).2 C d ml mt :=
      List.get?_mem hq
    have hmatch := (List.mem_filter.mp hmem).2
    unfold questionMatches at hmatch
    simp only [Bool.and_eq_true, Bool.not_eq_true', decide_eq_false_iff_not] at hmatch
    have hnot := hmatch.1.1.1
    rw [hQ] at hnot
    exact hnot (mark_usages_mem db C Q)
  · intro C2 hne d ml mt
    unfold build_questions_query
    rw [mark_questions_eq]
    apply List.filter_congr
    intro q _
    unfold questionMatches
    rw [decide_eq_decide.mpr (mark_usages_mem_other db C Q C2 q.question_id hne)]

/-- Witness for C1: after publishing question 1 to chat 5, the question
returned next for chat 5 is not question 1, and chat 7's candidate list
is untouched. -/
theorem C1_no_redelivery_per_chat_witness :
    exQ2.question_id ≠ 1 ∧
    build_questions_query (mark_question_published exDb 5 1).2 7 none 1 20 =
      build_questions_query exDb 7 none 1 20 :=
  ⟨(C1_no_redelivery_per_chat exDb 5 1).1 none 1 20 0 exQ2 (by decide),
   (C1_no_redelivery_per_chat exDb 5 1).2 7 (by decide) none 1 20⟩

/-- Helper: `crawlCount` on a cons is the tail count plus the head's
contribution. -/
theorem crawlCount_cons (c : CallerPhase) (tl : List CallerPhase) :
    crawlCount (c :: tl) = crawlCount tl + crawlOne c := by
  cases c <;> simp [crawlCount, crawlOne]

/-- Helper: `crawlCount` distributes over append. -/
theorem crawlCount_append : ∀ l m : List CallerPhase,
    crawlCount (l ++ m) = crawlCount l + crawlCount m
  | [], m => by simp [crawlCount]
  | c :: tl, m => by
      rw [List.cons_append, crawlCount_cons, crawlCount_cons, crawlCount_append tl m]
      omega

/-- Helper: overwriting index `i` (currently holding `a`) with `x`
changes `crawlCount` by the difference of contributions. -/
theorem crawlCount_set : ∀ (l : List CallerPhase) (i : Nat) (a x : CallerPhase),
    l.get? i = some a →
    crawlCount (l.set i x) + crawlOne a = crawlCount l + crawlOne x
  | [], i, a, x, h => by simp [List.get?] at h
  | c :: tl, 0, a, x, h => by
      have hca : c = a := by simpa [List.get?] using h
      subst hca
      rw [show (c :: tl).set 0 x = x :: tl from rfl, crawlCount_cons, crawlCount_cons]
      omega
  | c :: tl, i + 1, a, x, h => by
      have hh : tl.get? i = some a := by simpa [List.get?] using h
      have hih := crawlCount_set tl i a x hh
      rw [show (c :: tl).set (i + 1) x = c :: tl.set i x from rfl,
        crawlCount_cons, crawlCount_cons]
      omega

/-- Helper: `List.set` at one index leaves `get?` at another unchanged. -/
theorem get?_set_of_ne {α : Type} : ∀ (l : List α) (i j : Nat) (x : α), i ≠ j →
    (l.set i x).get? j = l.get? j
  | [], _, _, _, _ => by simp
  | _ :: _, 0, 0, _, h => absurd rfl h
  | _ :: _, 0, _ + 1, _, _ => rfl
  | _ :: _, _ + 1, 0, _, _ => rfl
  | _ :: tl, i + 1, j + 1, x, h =>
      get?_set_of_ne tl i j x (fun hh => h (by rw [hh]))

/-- Helper: `List.set` at an in-range index makes `get?` there the new
value. -/
theorem get?_set_self {α : Type} : ∀ (l : List α) (i : Nat) (x a : α),
    l.get? i = some a → (l.set i x).get? i = some x
  | [], i, x, a, h => by simp [List.get?] at h
  | _ :: _, 0, _, _, _ => rfl
  | _ :: tl, i + 1, x, a, h =>
      get?_set_self tl i x a (by simpa [List.get?] using h)

/-- Helper: `get?` at an index inside the left list is unchanged by
appending on the right. -/
theorem get?_append_of_some {α : Type} : ∀ (l m : List α) (i : Nat) (a : α),
    l.get? i = some a → (l ++ m).get? i = some a
  | [], _, i, a, h => by simp [List.get?] at h
  | _ :: _, _, 0, _, h => h
  | _ :: tl, m, i + 1, a, h =>
      get?_append_of_some tl m i a (by simpa [List.get?] using h)

/-- Helper: in every reachable gate state, the number of crawling callers
is 1 when the lock is held and 0 when it is free. -/
theorem gate_crawl_count (s : GateState) (hs : GateReachable s) :
    crawlCount s.tasks = (if s.held then 1 else 0) := by
  induction hs with
  | init => simp [crawlCount]
  | step hr hstep ih =>
      cases hstep with
      | spawn =>
          rename_i s1
          show crawlCount (s1.tasks ++ [CallerPhase.start]) = if s1.held then 1 else 0
          rw [crawlCount_append]
          simpa [crawlCount] using ih
      | checkFree i h hf =>
          rename_i s1
          show crawlCount (s1.tasks.set i CallerPhase.crawling) = if true then 1 else 0
          have hcs := crawlCount_set s1.tasks i CallerPhase.start CallerPhase.crawling h
          rw [hf] at ih
          simp only [crawlOne] at hcs
          simp only [if_true, Bool.false_eq_true, if_false] at ih ⊢
          omega
      | checkBusy i h ht =>
          rename_i s1
          show crawlCount (s1.tasks.set i CallerPhase.awaitZero) = if s1.held then 1 else 0
          have hcs := crawlCount_set s1.tasks i CallerPhase.start CallerPhase.awaitZero h
          simp only [crawlOne] at hcs
          omega
      | finishCrawl i h =>
          rename_i s1
          show crawlCount (s1.tasks.set i CallerPhase.doneCrawl) = if false then 1 else 0
          have hcs := crawlCount_set s1.tasks i CallerPhase.crawling CallerPhase.doneCrawl h
          simp only [crawlOne] at hcs
          cases hb : s1.held <;> rw [hb] at ih <;> simp at ih ⊢ <;> omega
      | zeroReturn i h hf =>
          rename_i s1
          show crawlCount (s1.tasks.set i CallerPhase.doneZero) = if s1.held then 1 else 0
          have hcs := crawlCount_set s1.tasks i CallerPhase.awaitZero CallerPhase.doneZero h
          simp only [crawlOne] at hcs
          omega

/-- C9: single-flight gate (`PoolService._replenish_lock`, services.py
lines 37-59).  In every reachable state the number of in-flight crawls is
1 exactly when the lock is held, hence never exceeds 1 — a caller that
found a crawl in flight never starts a second concurrent crawl; any step
taken by a waiting caller either leaves it waiting or, once the lock has
been released, completes it with the zero-effort return; and that return
is `ReplenishResult(added_questions=0, ready_count=0, pages_scanned=0)`
with every other counter at its default. -/
theorem C9_single_flight :
    (∀ s : GateState, GateReachable s →
      crawlCount s.tasks = (if s.held then 1 else 0)) ∧
    (∀ s : GateState, GateReachable s → crawlCount s.tasks ≤ 1) ∧
    (∀ s t : GateState, GateStep s t → ∀ i : Nat,
      s.tasks.get? i = some CallerPhase.awaitZero →
      t.tasks.get? i = some CallerPhase.awaitZero ∨
        (t.tasks.get? i = some CallerPhase.doneZero ∧ s.held = false)) ∧
    zeroEffortResult.added_questions = 0 ∧
    zeroEffortResult.ready_count = 0 ∧
    zeroEffortResult.pages_scanned = 0 ∧
    zeroEffortResult.packs_checked = 0 ∧
    zeroEffortResult.network_errors = 0 ∧
    zeroEffortResult.cursor_after = none := by
  refine ⟨gate_crawl_count, ?_, ?_, rfl, rfl, rfl, rfl, rfl, rfl⟩
  · intro s hs
    have h := gate_crawl_count s hs
    cases hb : s.held <;> rw [hb] at h <;> simp at h <;> omega
  · intro s t hstep i hi
    cases hstep with
    | spawn =>
        exact Or.inl (get?_append_of_some s.tasks _ i _ hi)
    | checkFree j h hf =>
        have hne : j ≠ i := by
          intro hji
          rw [hji, hi] at h
          exact absurd h (by simp)
        exact Or.inl
          ((get?_set_of_ne s.tasks j i CallerPhase.crawling hne).trans hi)
    | checkBusy j h ht =>
        have hne : j ≠ i := by
          intro hji
          rw [hji, hi] at h
          exact absurd h (by simp)
        exact Or.inl
          ((get?_set_of_ne s.tasks j i CallerPhase.awaitZero hne).trans hi)
    | finishCrawl j h =>
        have hne : j ≠ i := by
          intro hji
          rw [hji, hi] at h
          exact absurd h (by simp)
        exact Or.inl
          ((get?_set_of_ne s.tasks j i CallerPhase.doneCrawl hne).trans hi)
    | zeroReturn j h hf =>
        by_cases hji : j = i
        · subst hji
          exact Or.inr ⟨get?_set_self s.tasks j CallerPhase.doneZero _ h, hf⟩
        · exact Or.inl
            ((get?_set_of_ne s.tasks j i CallerPhase.doneZero hji).trans hi)

/-- Witness for C9: in the concrete run where caller 0 acquires the free
lock and crawls and caller 1 arrives while it is held, the reached state
has exactly one crawl in flight; and after the crawl releases the lock,
the waiting caller's exit is the zero-effort return. -/
theorem C9_single_flight_witness :
    crawlCount [CallerPhase.crawling, CallerPhase.awaitZero] = 1 ∧
    (([CallerPhase.doneCrawl, CallerPhase.awaitZero].set 1
        CallerPhase.doneZero).get? 1 = some CallerPhase.awaitZero ∨
      (([CallerPhase.doneCrawl, CallerPhase.awaitZero].set 1
          CallerPhase.doneZero).get? 1 = some CallerPhase.doneZero ∧
        (false : Bool) = false)) := by
  have h0 : GateReachable { held := false, tasks := ([] : List CallerPhase) } :=
    GateReachable.init
  have h1 := GateReachable.step h0 (GateStep.spawn _)
  have h2 := GateReachable.step h1 (GateStep.checkFree _ 0 rfl rfl)
  have h3 := GateReachable.step h2 (GateStep.spawn _)
  have h4 := GateReachable.step h3 (GateStep.checkBusy _ 1 rfl rfl)
  have hreach : GateReachable
      { held := true, tasks := [CallerPhase.crawling, CallerPhase.awaitZero] } := h4
  have hstep : GateStep
      { held := false, tasks := [CallerPhase.doneCrawl, CallerPhase.awaitZero] }
      { held := false, tasks := [CallerPhase.doneCrawl, CallerPhase.awaitZero].set 1
          CallerPhase.doneZero } :=
    GateStep.zeroReturn _ 1 rfl rfl
  exact ⟨by simpa using C9_single_flight.1 _ hreach,
    C9_single_flight.2.2.1 _ _ hstep 1 rfl⟩

end CHGK
